import Mathlib

/-!
# minimal_vm.c : a minimal KVM bootstrapper

Shallow embedding of `src/minimal_vm.c`.  The program is one `main` that talks to the
host kernel: every system call it issues is recorded as an `Event`, and every answer of
the kernel is read from a `Host` record.  `main` maps a `Host` to the process' exit status
and the trace of events it produced.
-/

namespace MinimalVm

/-! ## Constants -/

/-- The macro `GUEST_MEM_SIZE` of the source. -/
def GUEST_MEM_SIZE : Nat := 0x1000

/-- The array `guest_code` of the source, byte for byte:
`mov ax, 0x2a; mov bx, 0x1; add ax, bx; hlt; jmp $`. -/
def guest_code : List Nat :=
  [0xb8, 0x2a, 0x00,
   0xbb, 0x01, 0x00,
   0x01, 0xd8,
   0xf4,
   0xeb, 0xfe]

/-- The C expression `sizeof(guest_code)` (an array of `unsigned char`). -/
def sizeof_guest_code : Nat := guest_code.length

/-- The value of `MAP_FAILED`, that is `(void *) -1` on a 64-bit host (`sys/mman.h`, a
system header the source includes). -/
def MAP_FAILED : Nat := 2 ^ 64 - 1

/-- The value of `KVM_EXIT_IO` in `linux/kvm.h`, a system header the source includes. -/
def KVM_EXIT_IO : Nat := 2

/-- The value of `KVM_EXIT_HLT` in `linux/kvm.h`. -/
def KVM_EXIT_HLT : Nat := 5

/-- The value of `KVM_EXIT_FAIL_ENTRY` in `linux/kvm.h`. -/
def KVM_EXIT_FAIL_ENTRY : Nat := 9

/-- The value of `KVM_EXIT_INTERNAL_ERROR` in `linux/kvm.h`. -/
def KVM_EXIT_INTERNAL_ERROR : Nat := 17

/-! ## Data model: the structures of `linux/kvm.h` the program passes around -/

/-- The `struct kvm_regs` of `linux/kvm.h` (x86): eighteen 64-bit registers. -/
structure kvm_regs where
  rax : Nat
  rbx : Nat
  rcx : Nat
  rdx : Nat
  rsi : Nat
  rdi : Nat
  rsp : Nat
  rbp : Nat
  r8 : Nat
  r9 : Nat
  r10 : Nat
  r11 : Nat
  r12 : Nat
  r13 : Nat
  r14 : Nat
  r15 : Nat
  rip : Nat
  rflags : Nat
deriving DecidableEq, Repr

/-- The `struct kvm_segment` of `linux/kvm.h`. -/
structure kvm_segment where
  base : Nat
  limit : Nat
  selector : Nat
  type : Nat
  present : Nat
  dpl : Nat
  db : Nat
  s : Nat
  l : Nat
  g : Nat
  avl : Nat
  unusable : Nat
  padding : Nat
deriving DecidableEq, Repr

/-- The `struct kvm_dtable` of `linux/kvm.h`. -/
structure kvm_dtable where
  base : Nat
  limit : Nat
  padding : List Nat
deriving DecidableEq, Repr

/-- The `struct kvm_sregs` of `linux/kvm.h` (x86). -/
structure kvm_sregs where
  cs : kvm_segment
  ds : kvm_segment
  es : kvm_segment
  fs : kvm_segment
  gs : kvm_segment
  ss : kvm_segment
  tr : kvm_segment
  ldt : kvm_segment
  gdt : kvm_dtable
  idt : kvm_dtable
  cr0 : Nat
  cr2 : Nat
  cr3 : Nat
  cr4 : Nat
  cr8 : Nat
  efer : Nat
  apic_base : Nat
  interrupt_bitmap : List Nat
deriving DecidableEq, Repr

/-- The `struct kvm_userspace_memory_region` of `linux/kvm.h`. -/
structure kvm_userspace_memory_region where
  slot : Nat
  flags : Nat
  guest_phys_addr : Nat
  memory_size : Nat
  userspace_addr : Nat
deriving DecidableEq, Repr

/-- What one `ioctl(vcpu, KVM_RUN, 0)` that returns hands back: its return value and the
`exit_reason` field found in the shared `kvm_run` page afterwards. -/
structure RunExit where
  ret : Int
  exit_reason : Nat
deriving DecidableEq, Repr

/-! ## The host: the kernel's answers -/

/-- The answers of the host kernel to the calls of `main`.  Each field is named after the
variable of `main` that receives it.  `runs` lists, in order, the results of the `KVM_RUN`
calls that return; a call made when the list is used up never returns (the guest never
exits: `KVM_RUN` is blocking and has no timeout). -/
structure Host where
  /-- Return value of `open("/dev/kvm", O_RDWR)`. -/
  kvm : Int
  /-- Return value of `ioctl(kvm, KVM_CREATE_VM, 0)`. -/
  vm : Int
  /-- Return value of the `mmap` of the guest memory. -/
  mem : Nat
  /-- Bytes of the fresh mapping at `mem`. -/
  page : List Nat
  /-- Return value of `ioctl(vm, KVM_SET_USER_MEMORY_REGION, &mem_region)`. -/
  set_memory_ret : Int
  /-- Return value of `ioctl(vm, KVM_CREATE_VCPU, 0)`. -/
  vcpu : Int
  /-- Return value of `ioctl(kvm, KVM_GET_VCPU_MMAP_SIZE, 0)`. -/
  vcpu_mmap_size : Int
  /-- Return value of the `mmap` of the `kvm_run` page. -/
  run : Nat
  /-- Return value of the first `ioctl(vcpu, KVM_GET_REGS, &regs)`. -/
  get_regs_ret : Int
  /-- Contents of `regs` after that call (the kernel's answer, or what the stack held). -/
  regs : kvm_regs
  /-- Return value of `ioctl(vcpu, KVM_SET_REGS, &regs)`. -/
  set_regs_ret : Int
  /-- Return value of `ioctl(vcpu, KVM_GET_SREGS, &sregs)`. -/
  get_sregs_ret : Int
  /-- Contents of `sregs` after that call (the kernel's answer, or what the stack held). -/
  sregs : kvm_sregs
  /-- Return value of `ioctl(vcpu, KVM_SET_SREGS, &sregs)`. -/
  set_sregs_ret : Int
  /-- Results of the successive `KVM_RUN` calls that return. -/
  runs : List RunExit
  /-- Return value of the `ioctl(vcpu, KVM_GET_REGS, &regs)` issued after `KVM_EXIT_HLT`. -/
  hlt_get_regs_ret : Int
  /-- Contents of `regs` after that call. -/
  hlt_regs : kvm_regs
deriving Repr

/-! ## Events: what the process does -/

/-- The argument of the `perror` calls of the source. -/
inductive Diag where
  /-- The string `"open /dev/kvm"`. -/
  | open_dev_kvm
  /-- The string `"KVM_CREATE_VM"`. -/
  | KVM_CREATE_VM
  /-- The string `"mmap guest mem"`. -/
  | mmap_guest_mem
  /-- The string `"KVM_SET_USER_MEMORY_REGION"`. -/
  | KVM_SET_USER_MEMORY_REGION
  /-- The string `"KVM_CREATE_VCPU"`. -/
  | KVM_CREATE_VCPU
  /-- The string `"KVM_GET_VCPU_MMAP_SIZE"`. -/
  | KVM_GET_VCPU_MMAP_SIZE
  /-- The string `"mmap vcpu_run"`. -/
  | mmap_vcpu_run
  /-- The string `"KVM_GET_REGS"`. -/
  | KVM_GET_REGS
  /-- The string `"KVM_SET_REGS"`. -/
  | KVM_SET_REGS
  /-- The string `"KVM_RUN"`. -/
  | KVM_RUN
deriving DecidableEq, Repr

/-- The `printf` calls of the source: the format and the arguments passed. -/
inductive Msg where
  /-- The line `"KVM_EXIT_HLT\n"`. -/
  | hlt
  /-- The line `"rax=0x%llx rbx=0x%llx\n"` with `regs.rax` and `regs.rbx`. -/
  | regs (rax rbx : Nat)
  /-- The line `"KVM_EXIT_IO\n"`. -/
  | io
  /-- The line `"KVM_EXIT_FAIL_ENTRY\n"`. -/
  | fail_entry
  /-- The line `"KVM_EXIT_INTERNAL_ERROR\n"`. -/
  | internal_error
  /-- The line `"Unhandled exit reason: %d\n"` with `run->exit_reason`. -/
  | unhandled (exit_reason : Nat)
deriving DecidableEq, Repr

/-- One observable action of the process, with the arguments it passes and the answer it
gets. -/
inductive Event where
  /-- The call `open(KVM_DEV, O_RDWR)`. -/
  | open_ (ret : Int)
  /-- The call `ioctl(fd, KVM_CREATE_VM, 0)`. -/
  | create_vm (fd : Int) (ret : Int)
  /-- A call `mmap(NULL, length, PROT_READ | PROT_WRITE, flags, fd, 0)`. -/
  | mmap (length : Int) (fd : Int) (ret : Nat)
  /-- The call `memcpy(dest, src, n)`, `src` given by its bytes. -/
  | memcpy (dest : Nat) (src : List Nat) (n : Nat)
  /-- The call `ioctl(fd, KVM_SET_USER_MEMORY_REGION, &region)`. -/
  | set_user_memory_region (fd : Int) (region : kvm_userspace_memory_region) (ret : Int)
  /-- The call `ioctl(fd, KVM_CREATE_VCPU, id)`. -/
  | create_vcpu (fd : Int) (id : Nat) (ret : Int)
  /-- The call `ioctl(fd, KVM_GET_VCPU_MMAP_SIZE, 0)`. -/
  | get_vcpu_mmap_size (fd : Int) (ret : Int)
  /-- A call `ioctl(fd, KVM_GET_REGS, &regs)`; `out` is `regs` after the call. -/
  | get_regs (fd : Int) (ret : Int) (out : kvm_regs)
  /-- The call `ioctl(fd, KVM_SET_REGS, &regs)`; `arg` is `regs` at the call. -/
  | set_regs (fd : Int) (arg : kvm_regs) (ret : Int)
  /-- The call `ioctl(fd, KVM_GET_SREGS, &sregs)`; `out` is `sregs` after the call. -/
  | get_sregs (fd : Int) (ret : Int) (out : kvm_sregs)
  /-- The call `ioctl(fd, KVM_SET_SREGS, &sregs)`; `arg` is `sregs` at the call. -/
  | set_sregs (fd : Int) (arg : kvm_sregs) (ret : Int)
  /-- A call `ioctl(fd, KVM_RUN, 0)`; `none` when it never returns. -/
  | kvm_run (fd : Int) (res : Option RunExit)
  /-- A call `perror(s)`. -/
  | perror (s : Diag)
  /-- A call `printf(...)`. -/
  | printf (m : Msg)
  /-- A call `munmap(addr, length)`. -/
  | munmap (addr : Nat) (length : Int)
  /-- A call `close(fd)`. -/
  | close (fd : Int)
deriving DecidableEq, Repr

/-- How the process ends: with an exit status, or never (stuck in a `KVM_RUN` that does
not return). -/
inductive Exit where
  | status (code : Nat)
  | blocked
deriving DecidableEq, Repr

/-- An execution of `main`: how it ends and what it did, in order. -/
structure Result where
  exit : Exit
  trace : List Event
deriving DecidableEq, Repr

/-! ## The program -/

/-- The C library's `memcpy(dest, src, n)` on the bytes of the destination buffer: the
first `n` bytes become those of `src`, the others stay (`n` must not exceed either
length). -/
def memcpy (dest src : List Nat) (n : Nat) : List Nat :=
  src.take n ++ dest.drop n

/-- The statements `regs.rip = 0x0; regs.rflags = 0x2; regs.rax = 0x0; regs.rbx = 0x0;`. -/
def init_regs (regs : kvm_regs) : kvm_regs :=
  { regs with rip := 0x0, rflags := 0x2, rax := 0x0, rbx := 0x0 }

/-- The statements `sregs.cs.base = 0; sregs.cs.selector = 0;`. -/
def init_sregs (sregs : kvm_sregs) : kvm_sregs :=
  { sregs with cs := { sregs.cs with base := 0, selector := 0 } }

/-- The initialiser of `mem_region` in `main`; the fields it does not name are zero. -/
def mem_region (mem : Nat) : kvm_userspace_memory_region :=
  { slot := 0, flags := 0, guest_phys_addr := 0x0, memory_size := GUEST_MEM_SIZE,
    userspace_addr := mem }

/-- The bytes of the guest memory after step 4 of `main`,
`memcpy(mem, guest_code, sizeof(guest_code))`. -/
def guest_memory (h : Host) : List Nat :=
  memcpy h.page guest_code sizeof_guest_code

/-- The label `cleanup:` of `main` up to `return 0`. -/
def cleanup (h : Host) : Result :=
  ⟨Exit.status 0,
   [Event.munmap h.run h.vcpu_mmap_size,
    Event.munmap h.mem GUEST_MEM_SIZE,
    Event.close h.vcpu,
    Event.close h.vm,
    Event.close h.kvm]⟩

/-- Put events in front of the trace of a result. -/
def Result.after (t : List Event) (r : Result) : Result :=
  ⟨r.exit, t ++ r.trace⟩

/-- Step 9 of `main`: the loop `while (1)` around `KVM_RUN` and the `switch` on
`run->exit_reason`, as a recursion on the results of the `KVM_RUN` calls still to come. -/
def run_loop (h : Host) : List RunExit → Result
  | [] => ⟨Exit.blocked, [Event.kvm_run h.vcpu none]⟩
  | r :: rs =>
    if r.ret < 0 then
      ⟨Exit.status 1, [Event.kvm_run h.vcpu (some r), Event.perror Diag.KVM_RUN]⟩
    else if r.exit_reason = KVM_EXIT_HLT then
      if h.hlt_get_regs_ret < 0 then
        ⟨Exit.status 1,
         [Event.kvm_run h.vcpu (some r), Event.printf Msg.hlt,
          Event.get_regs h.vcpu h.hlt_get_regs_ret h.hlt_regs,
          Event.perror Diag.KVM_GET_REGS]⟩
      else
        (cleanup h).after
          [Event.kvm_run h.vcpu (some r), Event.printf Msg.hlt,
           Event.get_regs h.vcpu h.hlt_get_regs_ret h.hlt_regs,
           Event.printf (Msg.regs h.hlt_regs.rax h.hlt_regs.rbx)]
    else if r.exit_reason = KVM_EXIT_IO then
      (run_loop h rs).after [Event.kvm_run h.vcpu (some r), Event.printf Msg.io]
    else if r.exit_reason = KVM_EXIT_FAIL_ENTRY then
      (cleanup h).after [Event.kvm_run h.vcpu (some r), Event.printf Msg.fail_entry]
    else if r.exit_reason = KVM_EXIT_INTERNAL_ERROR then
      (cleanup h).after [Event.kvm_run h.vcpu (some r), Event.printf Msg.internal_error]
    else
      (cleanup h).after
        [Event.kvm_run h.vcpu (some r), Event.printf (Msg.unhandled r.exit_reason)]

/-- Step 8 of `main`, second half, and step 9: the segment registers are read, changed
and written back with no check of either return value, then the loop runs. -/
def set_sregs_and_run (h : Host) : Result :=
  (run_loop h h.runs).after
    [Event.get_sregs h.vcpu h.get_sregs_ret h.sregs,
     Event.set_sregs h.vcpu (init_sregs h.sregs) h.set_sregs_ret]

/-- Steps 6 to 8 of `main`, from `KVM_CREATE_VCPU` to `KVM_SET_REGS`, then the rest. -/
def vcpu_setup (h : Host) : Result :=
  if h.vcpu < 0 then
    ⟨Exit.status 1,
     [Event.create_vcpu h.vm 0 h.vcpu, Event.perror Diag.KVM_CREATE_VCPU]⟩
  else if h.vcpu_mmap_size < 0 then
    ⟨Exit.status 1,
     [Event.create_vcpu h.vm 0 h.vcpu,
      Event.get_vcpu_mmap_size h.kvm h.vcpu_mmap_size,
      Event.perror Diag.KVM_GET_VCPU_MMAP_SIZE]⟩
  else if h.run = MAP_FAILED then
    ⟨Exit.status 1,
     [Event.create_vcpu h.vm 0 h.vcpu,
      Event.get_vcpu_mmap_size h.kvm h.vcpu_mmap_size,
      Event.mmap h.vcpu_mmap_size h.vcpu h.run,
      Event.perror Diag.mmap_vcpu_run]⟩
  else if h.get_regs_ret < 0 then
    ⟨Exit.status 1,
     [Event.create_vcpu h.vm 0 h.vcpu,
      Event.get_vcpu_mmap_size h.kvm h.vcpu_mmap_size,
      Event.mmap h.vcpu_mmap_size h.vcpu h.run,
      Event.get_regs h.vcpu h.get_regs_ret h.regs,
      Event.perror Diag.KVM_GET_REGS]⟩
  else if h.set_regs_ret < 0 then
    ⟨Exit.status 1,
     [Event.create_vcpu h.vm 0 h.vcpu,
      Event.get_vcpu_mmap_size h.kvm h.vcpu_mmap_size,
      Event.mmap h.vcpu_mmap_size h.vcpu h.run,
      Event.get_regs h.vcpu h.get_regs_ret h.regs,
      Event.set_regs h.vcpu (init_regs h.regs) h.set_regs_ret,
      Event.perror Diag.KVM_SET_REGS]⟩
  else
    (set_sregs_and_run h).after
      [Event.create_vcpu h.vm 0 h.vcpu,
       Event.get_vcpu_mmap_size h.kvm h.vcpu_mmap_size,
       Event.mmap h.vcpu_mmap_size h.vcpu h.run,
       Event.get_regs h.vcpu h.get_regs_ret h.regs,
       Event.set_regs h.vcpu (init_regs h.regs) h.set_regs_ret]

/-- The function `main` of the source: steps 1 to 5 (device, VM, guest memory, payload,
memory region), then the vCPU and the loop. -/
def main (h : Host) : Result :=
  if h.kvm < 0 then
    ⟨Exit.status 1, [Event.open_ h.kvm, Event.perror Diag.open_dev_kvm]⟩
  else if h.vm < 0 then
    ⟨Exit.status 1,
     [Event.open_ h.kvm, Event.create_vm h.kvm h.vm, Event.perror Diag.KVM_CREATE_VM]⟩
  else if h.mem = MAP_FAILED then
    ⟨Exit.status 1,
     [Event.open_ h.kvm, Event.create_vm h.kvm h.vm,
      Event.mmap GUEST_MEM_SIZE (-1) h.mem,
      Event.perror Diag.mmap_guest_mem]⟩
  else if h.set_memory_ret < 0 then
    ⟨Exit.status 1,
     [Event.open_ h.kvm, Event.create_vm h.kvm h.vm,
      Event.mmap GUEST_MEM_SIZE (-1) h.mem,
      Event.memcpy h.mem guest_code sizeof_guest_code,
      Event.set_user_memory_region h.vm (mem_region h.mem) h.set_memory_ret,
      Event.perror Diag.KVM_SET_USER_MEMORY_REGION]⟩
  else
    (vcpu_setup h).after
      [Event.open_ h.kvm, Event.create_vm h.kvm h.vm,
       Event.mmap GUEST_MEM_SIZE (-1) h.mem,
       Event.memcpy h.mem guest_code sizeof_guest_code,
       Event.set_user_memory_region h.vm (mem_region h.mem) h.set_memory_ret]

/-! ## Reading a trace -/

/-- The event is a call of `KVM_RUN`. -/
def Event.is_run : Event → Bool
  | Event.kvm_run _ _ => true
  | _ => false

/-- Number of `KVM_RUN` calls in a trace. -/
def run_count (t : List Event) : Nat :=
  t.countP Event.is_run

/-- What one pass through the loop leaves in the trace when `KVM_RUN` returned `r` and
the `switch` took the `KVM_EXIT_IO` branch: the call and the line printed. -/
def io_pass (h : Host) (r : RunExit) : List Event :=
  [Event.kvm_run h.vcpu (some r), Event.printf Msg.io]

/-! ## Predicates on events and traces -/

/-- The ways the loop ends, after the passes that took the `KVM_EXIT_IO` branch: how the
process ends there and the last events of its trace. -/
inductive LoopEnd (h : Host) : Exit → List Event → Prop where
  | blocked : LoopEnd h Exit.blocked [Event.kvm_run h.vcpu none]
  | run_failed (r : RunExit) (hret : r.ret < 0) :
      LoopEnd h (Exit.status 1) [Event.kvm_run h.vcpu (some r), Event.perror Diag.KVM_RUN]
  | regs_failed (r : RunExit) (hret : 0 ≤ r.ret) (hr : r.exit_reason = KVM_EXIT_HLT)
      (hregs : h.hlt_get_regs_ret < 0) :
      LoopEnd h (Exit.status 1)
        [Event.kvm_run h.vcpu (some r), Event.printf Msg.hlt,
         Event.get_regs h.vcpu h.hlt_get_regs_ret h.hlt_regs,
         Event.perror Diag.KVM_GET_REGS]
  | halted (r : RunExit) (hret : 0 ≤ r.ret) (hr : r.exit_reason = KVM_EXIT_HLT)
      (hregs : 0 ≤ h.hlt_get_regs_ret) :
      LoopEnd h (Exit.status 0)
        ([Event.kvm_run h.vcpu (some r), Event.printf Msg.hlt,
          Event.get_regs h.vcpu h.hlt_get_regs_ret h.hlt_regs,
          Event.printf (Msg.regs h.hlt_regs.rax h.hlt_regs.rbx)] ++ (cleanup h).trace)
  | failed (r : RunExit) (m : Msg) (hret : 0 ≤ r.ret)
      (hm : m = Msg.fail_entry ∨ m = Msg.internal_error ∨ m = Msg.unhandled r.exit_reason) :
      LoopEnd h (Exit.status 0)
        ([Event.kvm_run h.vcpu (some r), Event.printf m] ++ (cleanup h).trace)

/-- The event is one of the operations `main` checks, and it reported failure: `open` or
a checked `ioctl` returned a negative value, or `mmap` returned `MAP_FAILED`. -/
def Event.failed : Event → Bool
  | Event.open_ ret => decide (ret < 0)
  | Event.create_vm _ ret => decide (ret < 0)
  | Event.mmap _ _ ret => decide (ret = MAP_FAILED)
  | Event.set_user_memory_region _ _ ret => decide (ret < 0)
  | Event.create_vcpu _ _ ret => decide (ret < 0)
  | Event.get_vcpu_mmap_size _ ret => decide (ret < 0)
  | Event.get_regs _ ret _ => decide (ret < 0)
  | Event.set_regs _ _ ret => decide (ret < 0)
  | Event.kvm_run _ (some r) => decide (r.ret < 0)
  | _ => false

/-- The event is a call of `perror`. -/
def Event.is_perror : Event → Bool
  | Event.perror _ => true
  | _ => false

/-- Every operation up to and including `KVM_SET_REGS` succeeded. -/
abbrev Host.setup_ok (h : Host) : Prop :=
  0 ≤ h.kvm ∧ 0 ≤ h.vm ∧ h.mem ≠ MAP_FAILED ∧ 0 ≤ h.set_memory_ret ∧ 0 ≤ h.vcpu ∧
  0 ≤ h.vcpu_mmap_size ∧ h.run ≠ MAP_FAILED ∧ 0 ≤ h.get_regs_ret ∧ 0 ≤ h.set_regs_ret

/-- The events of steps 1 to 8 of `main` when none of the checked operations fails. -/
def setup_trace (h : Host) : List Event :=
  [Event.open_ h.kvm, Event.create_vm h.kvm h.vm,
   Event.mmap GUEST_MEM_SIZE (-1) h.mem,
   Event.memcpy h.mem guest_code sizeof_guest_code,
   Event.set_user_memory_region h.vm (mem_region h.mem) h.set_memory_ret,
   Event.create_vcpu h.vm 0 h.vcpu,
   Event.get_vcpu_mmap_size h.kvm h.vcpu_mmap_size,
   Event.mmap h.vcpu_mmap_size h.vcpu h.run,
   Event.get_regs h.vcpu h.get_regs_ret h.regs,
   Event.set_regs h.vcpu (init_regs h.regs) h.set_regs_ret,
   Event.get_sregs h.vcpu h.get_sregs_ret h.sregs,
   Event.set_sregs h.vcpu (init_sregs h.sregs) h.set_sregs_ret]

/-- The event releases a resource: a call of `munmap` or of `close`. -/
def Event.is_teardown : Event → Bool
  | Event.munmap _ _ => true
  | Event.close _ => true
  | _ => false

/-! ## Sample hosts -/

/-- The registers of an x86 vCPU after reset. -/
def reset_regs : kvm_regs :=
  { rax := 0, rbx := 0, rcx := 0, rdx := 0x600, rsi := 0, rdi := 0, rsp := 0, rbp := 0,
    r8 := 0, r9 := 0, r10 := 0, r11 := 0, r12 := 0, r13 := 0, r14 := 0, r15 := 0,
    rip := 0xfff0, rflags := 0x2 }

/-- A real-mode data segment with selector 0. -/
def reset_segment : kvm_segment :=
  { base := 0, limit := 0xffff, selector := 0, type := 3, present := 1, dpl := 0, db := 0,
    s := 1, l := 0, g := 0, avl := 0, unusable := 0, padding := 0 }

/-- The segment and control registers of an x86 vCPU after reset. -/
def reset_sregs : kvm_sregs :=
  { cs := { reset_segment with base := 0xffff0000, selector := 0xf000, type := 11 },
    ds := reset_segment, es := reset_segment, fs := reset_segment, gs := reset_segment,
    ss := reset_segment,
    tr := { reset_segment with type := 11, s := 0 },
    ldt := { reset_segment with type := 2, s := 0 },
    gdt := { base := 0, limit := 0xffff, padding := [0, 0, 0] },
    idt := { base := 0, limit := 0xffff, padding := [0, 0, 0] },
    cr0 := 0x60000010, cr2 := 0, cr3 := 0, cr4 := 0, cr8 := 0, efer := 0,
    apic_base := 0xfee00900, interrupt_bitmap := [0, 0, 0, 0] }

/-- A host on which every operation succeeds and the guest halts at once, with `0x2b` in
`rax` and `0x1` in `rbx`. -/
def host_halt : Host :=
  { kvm := 3, vm := 4, mem := 0x7f0000000000, page := List.replicate 0x1000 0,
    set_memory_ret := 0, vcpu := 5, vcpu_mmap_size := 0x3000, run := 0x7f0000100000,
    get_regs_ret := 0, regs := reset_regs, set_regs_ret := 0,
    get_sregs_ret := 0, sregs := reset_sregs, set_sregs_ret := 0,
    runs := [⟨0, KVM_EXIT_HLT⟩],
    hlt_get_regs_ret := 0,
    hlt_regs := { reset_regs with rax := 0x2b, rbx := 0x1, rip := 0x9 } }

/-- A host on which the device cannot be opened. -/
def host_no_device : Host :=
  { host_halt with kvm := -1 }

/-- A host on which the guest does one port access, then halts. -/
def host_io_halt : Host :=
  { host_halt with runs := [⟨0, KVM_EXIT_IO⟩, ⟨0, KVM_EXIT_HLT⟩] }

/-- A host on which `KVM_RUN` itself fails. -/
def host_run_fails : Host :=
  { host_halt with runs := [⟨-1, 0⟩] }

/-- A host on which the guest leaves with exit reason 8 (`KVM_EXIT_SHUTDOWN`), a code the
`switch` does not name. -/
def host_shutdown : Host :=
  { host_halt with runs := [⟨0, 8⟩] }

/-- A host on which `KVM_GET_SREGS` fails and everything else succeeds. -/
def host_sregs_fail : Host :=
  { host_halt with get_sregs_ret := -1 }

/-- The kinds of event found from the first `KVM_RUN` on: `KVM_RUN`, `printf`, `perror`,
`KVM_GET_REGS`, `munmap` and `close`. -/
def Event.in_loop : Event → Bool
  | Event.kvm_run _ _ => true
  | Event.printf _ => true
  | Event.perror _ => true
  | Event.get_regs _ _ _ => true
  | Event.munmap _ _ => true
  | Event.close _ => true
  | _ => false

/-- The event is the load of the payload, a `memcpy`. -/
def Event.is_load : Event → Bool
  | Event.memcpy _ _ _ => true
  | _ => false

/-- The event is a `KVM_SET_USER_MEMORY_REGION`. -/
def Event.is_register_memory : Event → Bool
  | Event.set_user_memory_region _ _ _ => true
  | _ => false

/-- The event is a `KVM_CREATE_VCPU`. -/
def Event.is_create_vcpu : Event → Bool
  | Event.create_vcpu _ _ _ => true
  | _ => false

/-- The event is an `mmap`. -/
def Event.is_mmap : Event → Bool
  | Event.mmap _ _ _ => true
  | _ => false

/-- The event is a `KVM_GET_REGS`. -/
def Event.is_get_regs : Event → Bool
  | Event.get_regs _ _ _ => true
  | _ => false

/-- The event writes vCPU state: `KVM_SET_REGS` or `KVM_SET_SREGS`. -/
def Event.is_set_state : Event → Bool
  | Event.set_regs _ _ _ => true
  | Event.set_sregs _ _ _ => true
  | _ => false

/-- The event reads or writes vCPU state: `KVM_GET_REGS`, `KVM_SET_REGS`,
`KVM_GET_SREGS` or `KVM_SET_SREGS`. -/
def Event.is_register_op : Event → Bool
  | Event.get_regs _ _ _ => true
  | Event.set_regs _ _ _ => true
  | Event.get_sregs _ _ _ => true
  | Event.set_sregs _ _ _ => true
  | _ => false

/-- What may stand right before a `KVM_GET_REGS` and right before the line
`KVM_EXIT_HLT`: a `KVM_GET_REGS` comes right after an `mmap` (in the set-up) or right
after the line `KVM_EXIT_HLT`, and that line comes right after a `KVM_RUN` that returned
`KVM_EXIT_HLT`. -/
def follows_halt (h : Host) (a b : Event) : Prop :=
  (b.is_get_regs = true → a.is_mmap = true ∨ a = Event.printf Msg.hlt) ∧
  (b = Event.printf Msg.hlt →
    ∃ r, a = Event.kvm_run h.vcpu (some r) ∧ r.exit_reason = KVM_EXIT_HLT)

/-- What may come after a `KVM_RUN`: no `mmap`, no write of vCPU state, and no register
operation but the `KVM_GET_REGS` of the halt branch. -/
def after_run (h : Host) (a b : Event) : Prop :=
  a.is_run = true →
    b.is_mmap = false ∧ b.is_set_state = false ∧
    (b.is_register_op = true → b = Event.get_regs h.vcpu h.hlt_get_regs_ret h.hlt_regs)

/-! ## The guest CPU -/

/-- Modelled from the spec: a 16-bit register is the low word of its 64-bit register;
writing it leaves the upper bits alone. -/
def set_low16 (reg val : Nat) : Nat :=
  reg / 2 ^ 16 * 2 ^ 16 + val % 2 ^ 16

/-- Modelled from the spec: one instruction of the guest CPU in 16-bit mode, the CPU not
being code of the repository.  The instruction is fetched at linear address
`cs_base + rip` from the region registered at guest-physical address 0, and is one of the
five the payload is made of, as the comments of `guest_code` name them: `B8 iw` is
`mov ax, imm16`, `BB iw` is `mov bx, imm16`, `01 D8` is `add ax, bx`, `F4` is `hlt`,
`EB cb` is `jmp rel8`.  The result is `none` on any other byte and on a fetch outside the
region; the flag tells whether the CPU halted.  The arithmetic flags are not tracked: no
instruction of the payload reads them. -/
def guest_step (mem : List Nat) (cs_base : Nat) (r : kvm_regs) : Option (Bool × kvm_regs) :=
  match mem[cs_base + r.rip]? with
  | some 0xb8 =>
    match mem[cs_base + r.rip + 1]?, mem[cs_base + r.rip + 2]? with
    | some lo, some hi =>
      some (false, { r with rax := set_low16 r.rax (lo + 256 * hi),
                            rip := (r.rip + 3) % 2 ^ 16 })
    | _, _ => none
  | some 0xbb =>
    match mem[cs_base + r.rip + 1]?, mem[cs_base + r.rip + 2]? with
    | some lo, some hi =>
      some (false, { r with rbx := set_low16 r.rbx (lo + 256 * hi),
                            rip := (r.rip + 3) % 2 ^ 16 })
    | _, _ => none
  | some 0x01 =>
    match mem[cs_base + r.rip + 1]? with
    | some 0xd8 =>
      some (false, { r with rax := set_low16 r.rax (r.rax % 2 ^ 16 + r.rbx % 2 ^ 16),
                            rip := (r.rip + 2) % 2 ^ 16 })
    | _ => none
  | some 0xf4 => some (true, { r with rip := (r.rip + 1) % 2 ^ 16 })
  | some 0xeb =>
    match mem[cs_base + r.rip + 1]? with
    | some rel =>
      some (false, { r with rip :=
        (r.rip + 2 + rel + (if 0x80 ≤ rel then 2 ^ 16 - 0x100 else 0)) % 2 ^ 16 })
    | none => none
  | _ => none

/-- Modelled from the spec: the guest runs until it halts, for at most `fuel`
instructions.  The result is the list of the offsets (`rip`) of the instructions executed,
in order, and the registers at the halt; `none` when the guest did not halt within `fuel`
instructions or met a byte `guest_step` does not know. -/
def guest_run : Nat → List Nat → Nat → kvm_regs → Option (List Nat × kvm_regs)
  | 0, _, _, _ => none
  | fuel + 1, mem, cs_base, r =>
    match guest_step mem cs_base r with
    | none => none
    | some (true, r') => some ([r.rip], r')
    | some (false, r') =>
      match guest_run fuel mem cs_base r' with
      | none => none
      | some (offs, rf) => some (r.rip :: offs, rf)

/-- Modelled from the spec: the host runs the guest as `guest_run` has it, on the memory
and from the state `main` set up.  The segment registers were read and written with
success, the first `KVM_RUN` succeeds and reports the halt of the guest, and the register
read that follows succeeds and returns the `rax` and `rbx` the guest halted with. -/
def Host.runs_guest (h : Host) (fuel : Nat) : Bool :=
  match guest_run fuel (guest_memory h) (init_sregs h.sregs).cs.base (init_regs h.regs),
      h.runs with
  | some (_, rf), r :: _ =>
    decide (0 ≤ h.get_sregs_ret) && decide (0 ≤ h.set_sregs_ret) &&
    decide (0 ≤ r.ret) && decide (r.exit_reason = KVM_EXIT_HLT) &&
    decide (0 ≤ h.hlt_get_regs_ret) &&
    decide (h.hlt_regs.rax = rf.rax) && decide (h.hlt_regs.rbx = rf.rbx)
  | _, _ => false

/-! ## Lemmas on the loop -/

theorem after_exit (t : List Event) (r : Result) : (r.after t).exit = r.exit := rfl

theorem after_trace (t : List Event) (r : Result) : (r.after t).trace = t ++ r.trace := rfl

theorem after_after (t u : List Event) (r : Result) :
    (r.after u).after t = r.after (t ++ u) := by
  simp [Result.after]

theorem after_nil (r : Result) : r.after [] = r := by
  simp [Result.after]

theorem run_loop_io_cons (h : Host) (r : RunExit) (rs : List RunExit)
    (hret : 0 ≤ r.ret) (hio : r.exit_reason = KVM_EXIT_IO) :
    run_loop h (r :: rs) = (run_loop h rs).after (io_pass h r) := by
  have h1 : ¬ r.ret < 0 := not_lt.mpr hret
  have h2 : ¬ KVM_EXIT_IO = KVM_EXIT_HLT := by decide
  simp only [run_loop, h1, h2, hio, if_false, if_true, io_pass]

/-- The loop goes through a run of successful `KVM_EXIT_IO` exits, printing one line for
each, and carries on with the results that follow. -/
theorem run_loop_io_append (h : Host) (ios rest : List RunExit)
    (hios : ∀ x ∈ ios, 0 ≤ x.ret ∧ x.exit_reason = KVM_EXIT_IO) :
    run_loop h (ios ++ rest) = (run_loop h rest).after (ios.flatMap (io_pass h)) := by
  induction ios with
  | nil => simp [after_nil]
  | cons r rs ih =>
    have hr := hios r (List.mem_cons_self r rs)
    have hrs : ∀ x ∈ rs, 0 ≤ x.ret ∧ x.exit_reason = KVM_EXIT_IO :=
      fun x hx => hios x (List.mem_cons_of_mem r hx)
    rw [List.cons_append, run_loop_io_cons h r _ hr.1 hr.2, ih hrs, after_after,
      List.flatMap_cons]

theorem run_count_io_passes (h : Host) (ios : List RunExit) :
    run_count (ios.flatMap (io_pass h)) = ios.length := by
  induction ios with
  | nil => rfl
  | cons r rs ih =>
    simp only [run_count] at ih
    simp [run_count, List.flatMap_cons, io_pass, List.countP_cons, Event.is_run, ih]

theorem run_count_append (t u : List Event) :
    run_count (t ++ u) = run_count t + run_count u := by
  simp [run_count, List.countP_append]

theorem run_count_cleanup (h : Host) : run_count (cleanup h).trace = 0 := by
  simp [run_count, cleanup, List.countP_cons, Event.is_run]

/-- The loop at a successful exit that is not `KVM_EXIT_IO`, when the register read after
a halt succeeds: the call, the report chosen by the `switch`, then `cleanup`. -/
theorem run_loop_terminal (h : Host) (r : RunExit) (rest : List RunExit)
    (hret : 0 ≤ r.ret) (hr : r.exit_reason ≠ KVM_EXIT_IO)
    (hregs : r.exit_reason = KVM_EXIT_HLT → 0 ≤ h.hlt_get_regs_ret) :
    ∃ report,
      run_loop h (r :: rest) = (cleanup h).after (Event.kvm_run h.vcpu (some r) :: report) ∧
      run_count report = 0 ∧
      (r.exit_reason = KVM_EXIT_HLT →
        report = [Event.printf Msg.hlt,
                  Event.get_regs h.vcpu h.hlt_get_regs_ret h.hlt_regs,
                  Event.printf (Msg.regs h.hlt_regs.rax h.hlt_regs.rbx)]) ∧
      (r.exit_reason = KVM_EXIT_FAIL_ENTRY → report = [Event.printf Msg.fail_entry]) ∧
      (r.exit_reason = KVM_EXIT_INTERNAL_ERROR →
        report = [Event.printf Msg.internal_error]) ∧
      (r.exit_reason ≠ KVM_EXIT_HLT → r.exit_reason ≠ KVM_EXIT_FAIL_ENTRY →
        r.exit_reason ≠ KVM_EXIT_INTERNAL_ERROR →
        report = [Event.printf (Msg.unhandled r.exit_reason)]) := by
  have h1 : ¬ r.ret < 0 := not_lt.mpr hret
  by_cases c1 : r.exit_reason = KVM_EXIT_HLT
  · have h2 : ¬ h.hlt_get_regs_ret < 0 := not_lt.mpr (hregs c1)
    refine ⟨_, ?_, ?_, fun _ => rfl, ?_, ?_, ?_⟩
    · rw [run_loop, if_neg h1, if_pos c1, if_neg h2]
    · simp [run_count, List.countP_cons, Event.is_run]
    · intro c; rw [c1] at c; exact absurd c (by decide)
    · intro c; rw [c1] at c; exact absurd c (by decide)
    · intro c; exact absurd c1 c
  · by_cases c2 : r.exit_reason = KVM_EXIT_FAIL_ENTRY
    · refine ⟨_, ?_, ?_, fun c => absurd c c1, fun _ => rfl, ?_, ?_⟩
      · rw [run_loop, if_neg h1, if_neg c1, if_neg hr, if_pos c2]
      · simp [run_count, List.countP_cons, Event.is_run]
      · intro c; rw [c2] at c; exact absurd c (by decide)
      · intro _ c; exact absurd c2 c
    · by_cases c3 : r.exit_reason = KVM_EXIT_INTERNAL_ERROR
      · refine ⟨_, ?_, ?_, fun c => absurd c c1, fun c => absurd c c2, fun _ => rfl, ?_⟩
        · rw [run_loop, if_neg h1, if_neg c1, if_neg hr, if_neg c2, if_pos c3]
        · simp [run_count, List.countP_cons, Event.is_run]
        · intro _ _ c; exact absurd c3 c
      · refine ⟨_, ?_, ?_, fun c => absurd c c1, fun c => absurd c c2, fun c => absurd c c3,
          fun _ _ _ => rfl⟩
        · rw [run_loop, if_neg h1, if_neg c1, if_neg hr, if_neg c2, if_neg c3]
        · simp [run_count, List.countP_cons, Event.is_run]

theorem run_loop_all_io (h : Host) (ios : List RunExit)
    (hios : ∀ x ∈ ios, 0 ≤ x.ret ∧ x.exit_reason = KVM_EXIT_IO) :
    run_loop h ios =
      ⟨Exit.blocked, ios.flatMap (io_pass h) ++ [Event.kvm_run h.vcpu none]⟩ := by
  have e := run_loop_io_append h ios [] hios
  rw [List.append_nil] at e
  rw [e]
  simp [run_loop, Result.after]

/-- Every run of the loop is a sequence of `KVM_EXIT_IO` passes followed by one of the
endings of `LoopEnd`. -/
theorem run_loop_shape (h : Host) (rs : List RunExit) :
    ∃ (ios : List RunExit) (tail : List Event),
      (∀ x ∈ ios, 0 ≤ x.ret ∧ x.exit_reason = KVM_EXIT_IO) ∧
      (run_loop h rs).trace = ios.flatMap (io_pass h) ++ tail ∧
      LoopEnd h (run_loop h rs).exit tail := by
  induction rs with
  | nil => exact ⟨[], _, by simp, rfl, LoopEnd.blocked⟩
  | cons r rs ih =>
    by_cases h1 : r.ret < 0
    · rw [run_loop, if_pos h1]
      exact ⟨[], _, by simp, rfl, LoopEnd.run_failed r h1⟩
    · have hret : 0 ≤ r.ret := not_lt.mp h1
      by_cases c1 : r.exit_reason = KVM_EXIT_HLT
      · by_cases h2 : h.hlt_get_regs_ret < 0
        · rw [run_loop, if_neg h1, if_pos c1, if_pos h2]
          exact ⟨[], _, by simp, rfl, LoopEnd.regs_failed r hret c1 h2⟩
        · rw [run_loop, if_neg h1, if_pos c1, if_neg h2]
          exact ⟨[], _, by simp, rfl, LoopEnd.halted r hret c1 (not_lt.mp h2)⟩
      · by_cases c0 : r.exit_reason = KVM_EXIT_IO
        · obtain ⟨ios, tail, hios, ht, he⟩ := ih
          refine ⟨r :: ios, tail, ?_, ?_, ?_⟩
          · intro x hx
            rcases List.mem_cons.mp hx with rfl | hx
            · exact ⟨hret, c0⟩
            · exact hios x hx
          · rw [run_loop_io_cons h r rs hret c0, after_trace, ht, List.flatMap_cons,
              List.append_assoc]
          · rw [run_loop_io_cons h r rs hret c0, after_exit]; exact he
        · by_cases c2 : r.exit_reason = KVM_EXIT_FAIL_ENTRY
          · rw [run_loop, if_neg h1, if_neg c1, if_neg c0, if_pos c2]
            exact ⟨[], _, by simp, rfl, LoopEnd.failed r _ hret (Or.inl rfl)⟩
          · by_cases c3 : r.exit_reason = KVM_EXIT_INTERNAL_ERROR
            · rw [run_loop, if_neg h1, if_neg c1, if_neg c0, if_neg c2, if_pos c3]
              exact ⟨[], _, by simp, rfl, LoopEnd.failed r _ hret (Or.inr (Or.inl rfl))⟩
            · rw [run_loop, if_neg h1, if_neg c1, if_neg c0, if_neg c2, if_neg c3]
              exact ⟨[], _, by simp, rfl, LoopEnd.failed r _ hret (Or.inr (Or.inr rfl))⟩

/-! ## C1: the dispatch loop is exhaustive -/

/-- C1.  The dispatch loop as a function of the results of the `KVM_RUN` calls that
succeed.  Let `ios` be exits that all carry `KVM_EXIT_IO`, followed by an exit `r` that
does not.  Then the loop prints one line and calls `KVM_RUN` again after each exit of
`ios`, stops at `r`, and what it does there depends on `r.exit_reason` alone:
`KVM_EXIT_HLT` reads the registers and prints them (Halted), `KVM_EXIT_FAIL_ENTRY` and
`KVM_EXIT_INTERNAL_ERROR` print their name (Failed), every other code is printed as
unhandled (Failed); in each case the loop is left for `cleanup`.  The four cases cover
every code, and `KVM_RUN` is called `ios.length + 1` times.  If no other exit follows
`ios`, the loop has called `KVM_RUN` once more and waits in it.  The register read after
the halt is taken to succeed, as the loop is read as a function of the exits only. -/
theorem run_loop_exhaustive (h : Host) (ios rest : List RunExit) (r : RunExit)
    (hios : ∀ x ∈ ios, 0 ≤ x.ret ∧ x.exit_reason = KVM_EXIT_IO)
    (hret : 0 ≤ r.ret) (hr : r.exit_reason ≠ KVM_EXIT_IO)
    (hregs : 0 ≤ h.hlt_get_regs_ret) :
    (∃ report,
      run_loop h (ios ++ r :: rest) =
        (cleanup h).after
          (ios.flatMap (io_pass h) ++ Event.kvm_run h.vcpu (some r) :: report) ∧
      run_count report = 0 ∧
      (r.exit_reason = KVM_EXIT_HLT →
        report = [Event.printf Msg.hlt,
                  Event.get_regs h.vcpu h.hlt_get_regs_ret h.hlt_regs,
                  Event.printf (Msg.regs h.hlt_regs.rax h.hlt_regs.rbx)]) ∧
      (r.exit_reason = KVM_EXIT_FAIL_ENTRY → report = [Event.printf Msg.fail_entry]) ∧
      (r.exit_reason = KVM_EXIT_INTERNAL_ERROR →
        report = [Event.printf Msg.internal_error]) ∧
      (r.exit_reason ≠ KVM_EXIT_HLT → r.exit_reason ≠ KVM_EXIT_FAIL_ENTRY →
        r.exit_reason ≠ KVM_EXIT_INTERNAL_ERROR →
        report = [Event.printf (Msg.unhandled r.exit_reason)])) ∧
    run_count (run_loop h (ios ++ r :: rest)).trace = ios.length + 1 ∧
    run_loop h ios =
      ⟨Exit.blocked, ios.flatMap (io_pass h) ++ [Event.kvm_run h.vcpu none]⟩ := by
  obtain ⟨report, e, hc, hrep⟩ := run_loop_terminal h r rest hret hr (fun _ => hregs)
  have e2 : run_loop h (ios ++ r :: rest) =
      (cleanup h).after
        (ios.flatMap (io_pass h) ++ Event.kvm_run h.vcpu (some r) :: report) := by
    rw [run_loop_io_append h ios _ hios, e, after_after]
  refine ⟨⟨report, e2, hc, hrep⟩, ?_, run_loop_all_io h ios hios⟩
  rw [e2, after_trace, run_count_append, run_count_append, run_count_io_passes,
    run_count_cleanup]
  have : run_count (Event.kvm_run h.vcpu (some r) :: report) = 1 + run_count report := by
    simp [run_count, List.countP_cons, Event.is_run, Nat.add_comm]
  rw [this, hc]

/-! ## The set-up, and failures -/

/-- When the set-up succeeds, `main` is the set-up followed by the loop. -/
theorem main_of_setup_ok (h : Host) (hok : h.setup_ok) :
    main h = (run_loop h h.runs).after (setup_trace h) := by
  obtain ⟨h1, h2, h3, h4, h5, h6, h7, h8, h9⟩ := hok
  rw [main, if_neg (not_lt.mpr h1), if_neg (not_lt.mpr h2), if_neg h3,
    if_neg (not_lt.mpr h4), vcpu_setup, if_neg (not_lt.mpr h5), if_neg (not_lt.mpr h6),
    if_neg h7, if_neg (not_lt.mpr h8), if_neg (not_lt.mpr h9), set_sregs_and_run,
    after_after, after_after]
  rfl

theorem mem_io_passes (h : Host) (ios : List RunExit) (e : Event)
    (hios : ∀ x ∈ ios, 0 ≤ x.ret ∧ x.exit_reason = KVM_EXIT_IO)
    (he : e ∈ ios.flatMap (io_pass h)) :
    (∃ r, 0 ≤ r.ret ∧ r.exit_reason = KVM_EXIT_IO ∧ e = Event.kvm_run h.vcpu (some r)) ∨
      e = Event.printf Msg.io := by
  obtain ⟨r, hr, hm⟩ := List.mem_flatMap.mp he
  simp only [io_pass, List.mem_cons, List.mem_singleton, List.not_mem_nil, or_false] at hm
  rcases hm with rfl | rfl
  · exact Or.inl ⟨r, (hios r hr).1, (hios r hr).2, rfl⟩
  · exact Or.inr rfl

/-- No event of the `KVM_EXIT_IO` passes is a failure. -/
theorem io_passes_not_failed (h : Host) (ios : List RunExit) (e : Event)
    (hios : ∀ x ∈ ios, 0 ≤ x.ret ∧ x.exit_reason = KVM_EXIT_IO)
    (he : e ∈ ios.flatMap (io_pass h)) : e.failed = false := by
  rcases mem_io_passes h ios e hios he with ⟨r, hr, _, rfl⟩ | rfl
  · simp [Event.failed, hr]
  · rfl

theorem loop_failed_exit (h : Host) (rs : List RunExit) (e : Event)
    (he : e ∈ (run_loop h rs).trace) (hf : e.failed = true) :
    (run_loop h rs).exit = Exit.status 1 := by
  obtain ⟨ios, tail, hios, ht, hend⟩ := run_loop_shape h rs
  rw [ht, List.mem_append] at he
  generalize (run_loop h rs).exit = ex at hend ⊢
  rcases he with he | he
  · rw [io_passes_not_failed h ios e hios he] at hf; exact absurd hf (by decide)
  · cases hend with
    | blocked => simp at he; subst he; simp [Event.failed] at hf
    | run_failed r hret => rfl
    | regs_failed r hret hr hregs => rfl
    | halted r hret hr hregs =>
      simp [cleanup] at he
      rcases he with rfl | rfl | rfl | rfl | rfl | rfl | rfl | rfl | rfl <;>
        simp [Event.failed] at hf <;> omega
    | failed r m hret hm =>
      simp [cleanup] at he
      rcases he with rfl | rfl | rfl | rfl | rfl | rfl | rfl <;>
        (simp [Event.failed] at hf; try omega)

theorem loop_failed_last (h : Host) (rs : List RunExit) :
    List.Pairwise (fun a b => a.failed = true → b.is_perror = true) (run_loop h rs).trace := by
  obtain ⟨ios, tail, hios, ht, hend⟩ := run_loop_shape h rs
  rw [ht, List.pairwise_append]
  generalize (run_loop h rs).exit = ex at hend
  refine ⟨?_, ?_, ?_⟩
  · apply List.pairwise_of_forall_mem_list
    intro a ha b _ hf
    rw [io_passes_not_failed h ios a hios ha] at hf; exact absurd hf (by decide)
  · cases hend with
    | blocked => simp
    | run_failed r hret => simp [Event.is_perror]
    | regs_failed r hret hr hregs =>
      have : ¬ r.ret < 0 := not_lt.mpr hret
      simp [Event.is_perror, Event.failed, this]
    | halted r hret hr hregs =>
      have : ¬ r.ret < 0 := not_lt.mpr hret
      have : ¬ h.hlt_get_regs_ret < 0 := not_lt.mpr hregs
      simp [Event.is_perror, Event.failed, cleanup, *]
    | failed r m hret hm =>
      have : ¬ r.ret < 0 := not_lt.mpr hret
      simp [Event.is_perror, Event.failed, cleanup, *]
  · intro a ha b _ hf
    rw [io_passes_not_failed h ios a hios ha] at hf; exact absurd hf (by decide)

theorem main_failed_exit (h : Host) (e : Event)
    (he : e ∈ (main h).trace) (hf : e.failed = true) :
    (main h).exit = Exit.status 1 := by
  by_cases hok : h.setup_ok
  · rw [main_of_setup_ok h hok, after_exit]
    rw [main_of_setup_ok h hok, after_trace, List.mem_append] at he
    obtain ⟨h1, h2, h3, h4, h5, h6, h7, h8, h9⟩ := hok
    rcases he with he | he
    · simp only [setup_trace, List.mem_cons, List.mem_singleton, List.not_mem_nil,
        or_false] at he
      rcases he with rfl | rfl | rfl | rfl | rfl | rfl | rfl | rfl | rfl | rfl | rfl | rfl <;>
        simp [Event.failed] at hf <;> omega
    · exact loop_failed_exit h _ e he hf
  · revert hok he
    unfold main vcpu_setup Host.setup_ok
    split_ifs <;> intro he hok <;> first | rfl | (exfalso; apply hok; omega)

theorem main_failed_last (h : Host) :
    List.Pairwise (fun a b => a.failed = true → b.is_perror = true) (main h).trace := by
  by_cases hok : h.setup_ok
  · rw [main_of_setup_ok h hok, after_trace, List.pairwise_append]
    obtain ⟨h1, h2, h3, h4, h5, h6, h7, h8, h9⟩ := hok
    refine ⟨?_, loop_failed_last h _, ?_⟩
    · simp [setup_trace, Event.failed, Event.is_perror, not_lt.mpr h1, not_lt.mpr h2,
        not_lt.mpr h4, not_lt.mpr h5, not_lt.mpr h6, not_lt.mpr h8, not_lt.mpr h9, h3, h7]
    · intro a ha b _ hf
      simp only [setup_trace, List.mem_cons, List.mem_singleton, List.not_mem_nil,
        or_false] at ha
      rcases ha with rfl | rfl | rfl | rfl | rfl | rfl | rfl | rfl | rfl | rfl | rfl | rfl <;>
        simp [Event.failed] at hf <;> omega
  · revert hok
    unfold main vcpu_setup Host.setup_ok
    split_ifs <;> intro hok
    all_goals first
      | (exfalso; apply hok; omega)
      | simp [Result.after, Event.failed, Event.is_perror, *]

/-- An execution in which the set-up succeeds and the loop is left by `goto cleanup`:
exit status 0, and the trace ends with the events of `cleanup`. -/
theorem main_cleanup_path (h : Host) (ios rest : List RunExit) (r : RunExit)
    (hok : h.setup_ok) (hruns : h.runs = ios ++ r :: rest)
    (hios : ∀ x ∈ ios, 0 ≤ x.ret ∧ x.exit_reason = KVM_EXIT_IO)
    (hret : 0 ≤ r.ret) (hr : r.exit_reason ≠ KVM_EXIT_IO)
    (hregs : r.exit_reason = KVM_EXIT_HLT → 0 ≤ h.hlt_get_regs_ret) :
    ∃ report,
      main h = (cleanup h).after
        (setup_trace h ++ ios.flatMap (io_pass h) ++
          Event.kvm_run h.vcpu (some r) :: report) ∧
      run_count report = 0 ∧
      (r.exit_reason = KVM_EXIT_HLT →
        report = [Event.printf Msg.hlt,
                  Event.get_regs h.vcpu h.hlt_get_regs_ret h.hlt_regs,
                  Event.printf (Msg.regs h.hlt_regs.rax h.hlt_regs.rbx)]) ∧
      (r.exit_reason = KVM_EXIT_FAIL_ENTRY → report = [Event.printf Msg.fail_entry]) ∧
      (r.exit_reason = KVM_EXIT_INTERNAL_ERROR →
        report = [Event.printf Msg.internal_error]) ∧
      (r.exit_reason ≠ KVM_EXIT_HLT → r.exit_reason ≠ KVM_EXIT_FAIL_ENTRY →
        r.exit_reason ≠ KVM_EXIT_INTERNAL_ERROR →
        report = [Event.printf (Msg.unhandled r.exit_reason)]) := by
  obtain ⟨report, e, hrep⟩ := run_loop_terminal h r rest hret hr hregs
  refine ⟨report, ?_, hrep⟩
  rw [main_of_setup_ok h hok, hruns, run_loop_io_append h ios _ hios, e, after_after,
    after_after, List.append_assoc]

/-! ## C2: the exit status -/

/-- C2.  The exit status of the process.  When every operation succeeds and the loop
meets `KVM_EXIT_HLT` (after any number of `KVM_EXIT_IO` exits), the process runs
`cleanup` to its end and exits with status 0.  When one of `open`, `KVM_CREATE_VM`, the
`mmap` of the guest memory, `KVM_SET_USER_MEMORY_REGION`, `KVM_CREATE_VCPU`,
`KVM_GET_VCPU_MMAP_SIZE`, the `mmap` of the `kvm_run` page, `KVM_GET_REGS`,
`KVM_SET_REGS` or `KVM_RUN` reports failure, the process exits with status 1, and all it
does after the failed call is `perror`: no operation is issued again. -/
theorem process_exit_status (h : Host) :
    (h.setup_ok → 0 ≤ h.get_sregs_ret → 0 ≤ h.set_sregs_ret → 0 ≤ h.hlt_get_regs_ret →
      ∀ (ios rest : List RunExit) (r : RunExit), h.runs = ios ++ r :: rest →
        (∀ x ∈ ios, 0 ≤ x.ret ∧ x.exit_reason = KVM_EXIT_IO) →
        0 ≤ r.ret → r.exit_reason = KVM_EXIT_HLT →
        (main h).exit = Exit.status 0 ∧ List.IsSuffix (cleanup h).trace (main h).trace) ∧
    (∀ e ∈ (main h).trace, e.failed = true → (main h).exit = Exit.status 1) ∧
    List.Pairwise (fun a b => a.failed = true → b.is_perror = true) (main h).trace := by
  refine ⟨?_, fun e he hf => main_failed_exit h e he hf, main_failed_last h⟩
  intro hok _ _ hregs ios rest r hruns hios hret hr
  have hne : r.exit_reason ≠ KVM_EXIT_IO := by rw [hr]; decide
  obtain ⟨report, e, _⟩ := main_cleanup_path h ios rest r hok hruns hios hret hne (fun _ => hregs)
  rw [e]
  exact ⟨rfl, ⟨_, rfl⟩⟩

theorem run_loop_exhaustive_witness :
    run_count (run_loop host_io_halt ([⟨0, KVM_EXIT_IO⟩] ++ ⟨0, KVM_EXIT_HLT⟩ :: [])).trace
      = [(⟨0, KVM_EXIT_IO⟩ : RunExit)].length + 1 :=
  (run_loop_exhaustive host_io_halt [⟨0, KVM_EXIT_IO⟩] [] ⟨0, KVM_EXIT_HLT⟩
    (by decide) (by decide) (by decide) (by decide)).2.1

theorem process_exit_status_witness :
    ((main host_halt).exit = Exit.status 0 ∧
      List.IsSuffix (cleanup host_halt).trace (main host_halt).trace) ∧
    (main host_no_device).exit = Exit.status 1 :=
  ⟨(process_exit_status host_halt).1 (by decide) (by decide) (by decide) (by decide)
      [] [] ⟨0, KVM_EXIT_HLT⟩ rfl (by decide) (by decide) rfl,
   (process_exit_status host_no_device).2.1 (Event.open_ (-1)) (by decide) (by decide)⟩

/-! ## C3: teardown -/

theorem teardown_count_io_passes (h : Host) (ios : List RunExit) :
    (ios.flatMap (io_pass h)).countP Event.is_teardown = 0 := by
  induction ios with
  | nil => rfl
  | cons r rs ih =>
    simp [List.flatMap_cons, io_pass, List.countP_cons, Event.is_teardown, ih]

theorem teardown_count_setup (h : Host) : (setup_trace h).countP Event.is_teardown = 0 := by
  simp [setup_trace, List.countP_cons, Event.is_teardown]

/-- The loop runs `cleanup`, once and last, exactly when it ends with status 0. -/
theorem loop_teardown (h : Host) (rs : List RunExit) :
    ((run_loop h rs).exit = Exit.status 0 →
      List.IsSuffix (cleanup h).trace (run_loop h rs).trace ∧
      (run_loop h rs).trace.countP Event.is_teardown = 5) ∧
    ((run_loop h rs).exit ≠ Exit.status 0 →
      (run_loop h rs).trace.countP Event.is_teardown = 0) := by
  obtain ⟨ios, tail, hios, ht, hend⟩ := run_loop_shape h rs
  rw [ht, List.countP_append, teardown_count_io_passes]
  generalize (run_loop h rs).exit = ex at hend ⊢
  cases hend with
  | blocked => simp [List.countP_cons, Event.is_teardown]
  | run_failed r hret => simp [List.countP_cons, Event.is_teardown]
  | regs_failed r hret hr hregs => simp [List.countP_cons, Event.is_teardown]
  | halted r hret hr hregs =>
    refine ⟨fun _ => ⟨?_, ?_⟩, fun hne => absurd rfl hne⟩
    · exact ⟨_ ++ _, List.append_assoc _ _ _⟩
    · simp [cleanup, List.countP_cons, Event.is_teardown]
  | failed r m hret hm =>
    refine ⟨fun _ => ⟨?_, ?_⟩, fun hne => absurd rfl hne⟩
    · exact ⟨_ ++ _, List.append_assoc _ _ _⟩
    · simp [cleanup, List.countP_cons, Event.is_teardown]

theorem main_teardown (h : Host) :
    ((main h).exit = Exit.status 0 →
      List.IsSuffix (cleanup h).trace (main h).trace ∧
      (main h).trace.countP Event.is_teardown = 5) ∧
    ((main h).exit ≠ Exit.status 0 →
      (main h).trace.countP Event.is_teardown = 0) := by
  by_cases hok : h.setup_ok
  · rw [main_of_setup_ok h hok, after_exit, after_trace, List.countP_append,
      teardown_count_setup]
    obtain ⟨l1, l2⟩ := loop_teardown h h.runs
    refine ⟨fun he => ⟨?_, ?_⟩, fun hne => ?_⟩
    · obtain ⟨pre, hp⟩ := (l1 he).1
      exact ⟨setup_trace h ++ pre, by rw [List.append_assoc, hp]⟩
    · rw [(l1 he).2]
    · rw [l2 hne]
  · revert hok
    unfold main vcpu_setup Host.setup_ok
    split_ifs <;> intro hok
    all_goals first
      | (exfalso; apply hok; omega)
      | simp [Result.after, List.countP_cons, Event.is_teardown]

/-- An execution in which the set-up succeeds and `KVM_RUN`, or the register read after
a halt, fails: exit status 1. -/
theorem main_loop_failure (h : Host) (ios rest : List RunExit) (r : RunExit)
    (hok : h.setup_ok) (hruns : h.runs = ios ++ r :: rest)
    (hios : ∀ x ∈ ios, 0 ≤ x.ret ∧ x.exit_reason = KVM_EXIT_IO)
    (hfail : r.ret < 0 ∨ (r.exit_reason = KVM_EXIT_HLT ∧ h.hlt_get_regs_ret < 0)) :
    (main h).exit = Exit.status 1 := by
  rw [main_of_setup_ok h hok, hruns, run_loop_io_append h ios _ hios, after_exit, after_exit]
  by_cases h1 : r.ret < 0
  · rw [run_loop, if_pos h1]
  · rcases hfail with hf | ⟨c1, h2⟩
    · exact absurd hf h1
    · rw [run_loop, if_neg h1, if_pos c1, if_pos h2]

/-- C3, as the code has it.  The process runs `cleanup` on the paths that leave the loop
through `goto cleanup`, and only there.  Whenever the process ends with status 0, its
trace ends with `munmap(run)`, `munmap(mem)`, `close(vcpu)`, `close(vm)`, `close(kvm)` in
this order and holds no other `munmap` or `close`; whenever it ends otherwise, its trace
holds no `munmap` and no `close` at all.  After a successful set-up, status 0 is reached
when the loop meets a successful exit other than `KVM_EXIT_IO` (a halt whose register
read succeeds, a failed entry, an internal error, an unrecognised code), and status 1 when
`KVM_RUN` or the register read after a halt reports failure. -/
theorem teardown_on_cleanup_paths (h : Host) :
    ((main h).exit = Exit.status 0 →
      List.IsSuffix
        [Event.munmap h.run h.vcpu_mmap_size, Event.munmap h.mem GUEST_MEM_SIZE,
         Event.close h.vcpu, Event.close h.vm, Event.close h.kvm] (main h).trace ∧
      (main h).trace.countP Event.is_teardown = 5) ∧
    ((main h).exit ≠ Exit.status 0 →
      (main h).trace.countP Event.is_teardown = 0) ∧
    (h.setup_ok → ∀ (ios rest : List RunExit) (r : RunExit), h.runs = ios ++ r :: rest →
      (∀ x ∈ ios, 0 ≤ x.ret ∧ x.exit_reason = KVM_EXIT_IO) →
      (0 ≤ r.ret → r.exit_reason ≠ KVM_EXIT_IO →
        (r.exit_reason = KVM_EXIT_HLT → 0 ≤ h.hlt_get_regs_ret) →
        (main h).exit = Exit.status 0) ∧
      (r.ret < 0 ∨ (r.exit_reason = KVM_EXIT_HLT ∧ h.hlt_get_regs_ret < 0) →
        (main h).exit = Exit.status 1)) := by
  refine ⟨(main_teardown h).1, (main_teardown h).2, ?_⟩
  intro hok ios rest r hruns hios
  refine ⟨fun hret hr hregs => ?_, fun hfail => main_loop_failure h ios rest r hok hruns hios hfail⟩
  obtain ⟨report, e, _⟩ := main_cleanup_path h ios rest r hok hruns hios hret hr hregs
  rw [e]; rfl

theorem teardown_on_cleanup_paths_witness :
    (List.IsSuffix
        [Event.munmap host_halt.run host_halt.vcpu_mmap_size,
         Event.munmap host_halt.mem GUEST_MEM_SIZE,
         Event.close host_halt.vcpu, Event.close host_halt.vm, Event.close host_halt.kvm]
        (main host_halt).trace ∧
      (main host_halt).trace.countP Event.is_teardown = 5) ∧
    (main host_run_fails).trace.countP Event.is_teardown = 0 ∧
    (main host_shutdown).exit = Exit.status 0 ∧
    (main host_run_fails).exit = Exit.status 1 :=
  ⟨(teardown_on_cleanup_paths host_halt).1 (by decide),
   (teardown_on_cleanup_paths host_run_fails).2.1 (by decide),
   ((teardown_on_cleanup_paths host_shutdown).2.2 (by decide) [] [] ⟨0, 8⟩ rfl
      (by decide)).1 (by decide) (by decide) (by decide),
   ((teardown_on_cleanup_paths host_run_fails).2.2 (by decide) [] [] ⟨-1, 0⟩ rfl
      (by decide)).2 (by decide)⟩

/-- C3 fails as stated: when `KVM_RUN` reports failure the process leaves the loop and
ends with status 1 without a single `munmap` or `close`. -/
theorem teardown_skipped_when_run_fails :
    host_run_fails.setup_ok ∧
    (main host_run_fails).trace =
      setup_trace host_run_fails ++
        [Event.kvm_run 5 (some ⟨-1, 0⟩), Event.perror Diag.KVM_RUN] ∧
    (main host_run_fails).exit = Exit.status 1 ∧
    (main host_run_fails).trace.countP Event.is_teardown = 0 := by
  decide

/-! ## C4: an exit reason the `switch` does not name -/

/-- C4, as the code has it.  After a successful set-up, let `KVM_RUN` return successfully
with `KVM_EXIT_IO` some number of times and then with a code `r.exit_reason` that is none
of `KVM_EXIT_HLT`, `KVM_EXIT_IO`, `KVM_EXIT_FAIL_ENTRY`, `KVM_EXIT_INTERNAL_ERROR`.  Then
the process prints the code as unhandled, does not call `KVM_RUN` again, runs `cleanup`
and ends with exit status 0. -/
theorem unhandled_exit_stops (h : Host) (ios rest : List RunExit) (r : RunExit)
    (hok : h.setup_ok) (hruns : h.runs = ios ++ r :: rest)
    (hios : ∀ x ∈ ios, 0 ≤ x.ret ∧ x.exit_reason = KVM_EXIT_IO)
    (hret : 0 ≤ r.ret)
    (c1 : r.exit_reason ≠ KVM_EXIT_HLT) (c0 : r.exit_reason ≠ KVM_EXIT_IO)
    (c2 : r.exit_reason ≠ KVM_EXIT_FAIL_ENTRY)
    (c3 : r.exit_reason ≠ KVM_EXIT_INTERNAL_ERROR) :
    (main h).trace =
      setup_trace h ++ ios.flatMap (io_pass h) ++
        [Event.kvm_run h.vcpu (some r), Event.printf (Msg.unhandled r.exit_reason)] ++
        (cleanup h).trace ∧
    run_count (main h).trace = ios.length + 1 ∧
    (main h).exit = Exit.status 0 := by
  obtain ⟨report, e, _, _, _, _, hrep⟩ :=
    main_cleanup_path h ios rest r hok hruns hios hret c0 (fun c => absurd c c1)
  have hr := hrep c1 c2 c3
  subst hr
  have ht : (main h).trace =
      setup_trace h ++ ios.flatMap (io_pass h) ++
        [Event.kvm_run h.vcpu (some r), Event.printf (Msg.unhandled r.exit_reason)] ++
        (cleanup h).trace := by
    rw [e, after_trace, List.append_assoc]
  refine ⟨ht, ?_, by rw [e]; rfl⟩
  rw [ht, run_count_append, run_count_append, run_count_append, run_count_io_passes,
    run_count_cleanup]
  simp [run_count, setup_trace, List.countP_cons, Event.is_run]

theorem unhandled_exit_stops_witness :
    (main host_shutdown).trace =
      setup_trace host_shutdown ++ ([] : List RunExit).flatMap (io_pass host_shutdown) ++
        [Event.kvm_run host_shutdown.vcpu (some ⟨0, 8⟩), Event.printf (Msg.unhandled 8)] ++
        (cleanup host_shutdown).trace ∧
    run_count (main host_shutdown).trace = ([] : List RunExit).length + 1 ∧
    (main host_shutdown).exit = Exit.status 0 :=
  unhandled_exit_stops host_shutdown [] [] ⟨0, 8⟩ (by decide) rfl (by decide) (by decide)
    (by decide) (by decide) (by decide) (by decide)

/-- C4 fails as stated: a successful `KVM_RUN` returns code 8, which is none of the four
named codes; the process prints it as unhandled, calls `KVM_RUN` no more, and ends with
exit status 0, not with a non-zero status. -/
theorem unhandled_exit_status_zero :
    host_shutdown.setup_ok ∧ host_shutdown.runs = [⟨0, 8⟩] ∧
    8 ≠ KVM_EXIT_HLT ∧ 8 ≠ KVM_EXIT_IO ∧ 8 ≠ KVM_EXIT_FAIL_ENTRY ∧
    8 ≠ KVM_EXIT_INTERNAL_ERROR ∧
    Event.printf (Msg.unhandled 8) ∈ (main host_shutdown).trace ∧
    run_count (main host_shutdown).trace = 1 ∧
    (main host_shutdown).exit = Exit.status 0 := by
  decide

/-! ## C5: the segment registers are not checked -/

/-- C5 on the code: `KVM_GET_SREGS` returns -1, yet the process goes on to
`KVM_SET_SREGS`, calls `KVM_RUN` and ends with exit status 0. -/
theorem sregs_failure_ignored :
    host_sregs_fail.get_sregs_ret = -1 ∧
    (main host_sregs_fail).trace =
      [Event.open_ 3, Event.create_vm 3 4, Event.mmap 0x1000 (-1) 0x7f0000000000,
       Event.memcpy 0x7f0000000000 guest_code 11,
       Event.set_user_memory_region 4 (mem_region 0x7f0000000000) 0,
       Event.create_vcpu 4 0 5, Event.get_vcpu_mmap_size 3 0x3000,
       Event.mmap 0x3000 5 0x7f0000100000,
       Event.get_regs 5 0 reset_regs, Event.set_regs 5 (init_regs reset_regs) 0,
       Event.get_sregs 5 (-1) reset_sregs, Event.set_sregs 5 (init_sregs reset_sregs) 0,
       Event.kvm_run 5 (some ⟨0, KVM_EXIT_HLT⟩), Event.printf Msg.hlt,
       Event.get_regs 5 0 host_halt.hlt_regs, Event.printf (Msg.regs 0x2b 0x1),
       Event.munmap 0x7f0000100000 0x3000, Event.munmap 0x7f0000000000 0x1000,
       Event.close 5, Event.close 4, Event.close 3] ∧
    run_count (main host_sregs_fail).trace = 1 ∧
    (main host_sregs_fail).exit = Exit.status 0 := by
  decide

/-! ## What the loop can produce -/

theorem loop_events (h : Host) (rs : List RunExit) :
    ∀ e ∈ (run_loop h rs).trace, e.in_loop = true := by
  obtain ⟨ios, tail, hios, ht, hend⟩ := run_loop_shape h rs
  rw [ht]
  generalize (run_loop h rs).exit = ex at hend
  intro e he
  rcases List.mem_append.mp he with he | he
  · rcases mem_io_passes h ios e hios he with ⟨r, _, _, rfl⟩ | rfl <;> rfl
  · cases hend with
    | blocked => simp at he; subst he; rfl
    | run_failed r hret => simp at he; rcases he with rfl | rfl <;> rfl
    | regs_failed r hret hr hregs =>
      simp at he; rcases he with rfl | rfl | rfl | rfl <;> rfl
    | halted r hret hr hregs =>
      simp [cleanup] at he
      rcases he with rfl | rfl | rfl | rfl | rfl | rfl | rfl | rfl | rfl <;> rfl
    | failed r m hret hm =>
      simp [cleanup] at he
      rcases he with rfl | rfl | rfl | rfl | rfl | rfl | rfl <;> rfl

/-! ## The shape of every execution -/

theorem memcpy_length (dest src : List Nat) (n : Nat) (hs : n ≤ src.length)
    (hd : n ≤ dest.length) : (memcpy dest src n).length = dest.length := by
  simp [memcpy, List.length_take, List.length_drop]; omega

theorem memcpy_copied (dest src : List Nat) (n i : Nat) (hs : n ≤ src.length) (hi : i < n) :
    (memcpy dest src n)[i]? = src[i]? := by
  unfold memcpy
  rw [List.getElem?_append_left (by simp [List.length_take]; omega), List.getElem?_take]
  simp [hi]

theorem memcpy_kept (dest src : List Nat) (n i : Nat) (hs : n ≤ src.length) (hi : n ≤ i) :
    (memcpy dest src n)[i]? = dest[i]? := by
  unfold memcpy
  have hl : (src.take n).length = n := by simp [List.length_take]; omega
  rw [List.getElem?_append_right (by omega), hl, List.getElem?_drop]
  congr 1; omega

/-- Every execution either completes the set-up and enters the loop, or stops at the
first checked operation that fails, having done a prefix of the set-up and one `perror`. -/
theorem main_shape (h : Host) :
    (h.setup_ok ∧ main h = (run_loop h h.runs).after (setup_trace h)) ∨
    (∃ k d, k ≤ 10 ∧
      main h = ⟨Exit.status 1, (setup_trace h).take k ++ [Event.perror d]⟩) := by
  by_cases h1 : h.kvm < 0
  · exact Or.inr ⟨1, Diag.open_dev_kvm, by decide, by rw [main, if_pos h1]; rfl⟩
  by_cases h2 : h.vm < 0
  · exact Or.inr ⟨2, Diag.KVM_CREATE_VM, by decide, by rw [main, if_neg h1, if_pos h2]; rfl⟩
  by_cases h3 : h.mem = MAP_FAILED
  · exact Or.inr ⟨3, Diag.mmap_guest_mem, by decide,
      by rw [main, if_neg h1, if_neg h2, if_pos h3]; rfl⟩
  by_cases h4 : h.set_memory_ret < 0
  · exact Or.inr ⟨5, Diag.KVM_SET_USER_MEMORY_REGION, by decide,
      by rw [main, if_neg h1, if_neg h2, if_neg h3, if_pos h4]; rfl⟩
  have hm : main h = (vcpu_setup h).after ((setup_trace h).take 5) := by
    rw [main, if_neg h1, if_neg h2, if_neg h3, if_neg h4]; rfl
  by_cases h5 : h.vcpu < 0
  · exact Or.inr ⟨6, Diag.KVM_CREATE_VCPU, by decide,
      by rw [hm, vcpu_setup, if_pos h5]; rfl⟩
  by_cases h6 : h.vcpu_mmap_size < 0
  · exact Or.inr ⟨7, Diag.KVM_GET_VCPU_MMAP_SIZE, by decide,
      by rw [hm, vcpu_setup, if_neg h5, if_pos h6]; rfl⟩
  by_cases h7 : h.run = MAP_FAILED
  · exact Or.inr ⟨8, Diag.mmap_vcpu_run, by decide,
      by rw [hm, vcpu_setup, if_neg h5, if_neg h6, if_pos h7]; rfl⟩
  by_cases h8 : h.get_regs_ret < 0
  · exact Or.inr ⟨9, Diag.KVM_GET_REGS, by decide,
      by rw [hm, vcpu_setup, if_neg h5, if_neg h6, if_neg h7, if_pos h8]; rfl⟩
  by_cases h9 : h.set_regs_ret < 0
  · exact Or.inr ⟨10, Diag.KVM_SET_REGS, by decide,
      by rw [hm, vcpu_setup, if_neg h5, if_neg h6, if_neg h7, if_neg h8, if_pos h9]; rfl⟩
  have hok : h.setup_ok :=
    ⟨not_lt.mp h1, not_lt.mp h2, h3, not_lt.mp h4, not_lt.mp h5, not_lt.mp h6, h7,
      not_lt.mp h8, not_lt.mp h9⟩
  exact Or.inl ⟨hok, main_of_setup_ok h hok⟩

/-- Every event of an execution is an event of the set-up, a `perror`, or an event of the
loop. -/
theorem main_events (h : Host) (e : Event) (he : e ∈ (main h).trace) :
    e ∈ setup_trace h ∨ e.in_loop = true := by
  rcases main_shape h with ⟨_, hm⟩ | ⟨k, d, _, hm⟩
  · rw [hm, after_trace] at he
    rcases List.mem_append.mp he with he | he
    · exact Or.inl he
    · exact Or.inr (loop_events h _ e he)
  · rw [hm] at he
    rcases List.mem_append.mp he with he | he
    · exact Or.inl (List.mem_of_mem_take he)
    · rw [List.mem_singleton] at he; subst he; exact Or.inr rfl

/-- In every execution the only `memcpy` is the load of `guest_code` at the start of the
guest buffer, and the only region registered is the one of `mem_region`. -/
theorem main_load_events (h : Host) :
    (∀ dest src n, Event.memcpy dest src n ∈ (main h).trace →
      dest = h.mem ∧ src = guest_code ∧ n = sizeof_guest_code) ∧
    (∀ fd region ret, Event.set_user_memory_region fd region ret ∈ (main h).trace →
      fd = h.vm ∧ region = mem_region h.mem) := by
  constructor
  · intro dest src n he
    rcases main_events h _ he with he | he
    · simpa [setup_trace] using he
    · simp [Event.in_loop] at he
  · intro fd region ret he
    rcases main_events h _ he with he | he
    · have := he; simp [setup_trace] at this; exact ⟨this.1, this.2.1⟩
    · simp [Event.in_loop] at he

/-- C9.  The payload is the eleven bytes `B8 2A 00 BB 01 00 01 D8 F4 EB FE`.  The load,
`memcpy(mem, guest_code, sizeof(guest_code))`, writes at offset 0 of a buffer of `0x1000`
bytes: afterwards byte `i` is byte `i` of the payload for `i < 11`, the bytes at offsets
11 to `0xFFF` are those the buffer had, and the length is unchanged; `11 ≤ 0x1000`, so
the payload fits.  An execution that gets that far maps `0x1000` bytes at `mem`, loads the
payload at `mem` and registers `mem` with size `0x1000` at slot 0, guest-physical address
`0x0`; no other load or registration ever occurs. -/
theorem load_payload (h : Host) :
    guest_code = [0xB8, 0x2A, 0x00, 0xBB, 0x01, 0x00, 0x01, 0xD8, 0xF4, 0xEB, 0xFE] ∧
    sizeof_guest_code = 11 ∧ sizeof_guest_code ≤ GUEST_MEM_SIZE ∧
    (h.page.length = GUEST_MEM_SIZE →
      (guest_memory h).length = GUEST_MEM_SIZE ∧
      (∀ i, i < 11 → (guest_memory h)[i]? = guest_code[i]?) ∧
      (∀ i, 11 ≤ i → i < 0x1000 → (guest_memory h)[i]? = h.page[i]?)) ∧
    (0 ≤ h.kvm → 0 ≤ h.vm → h.mem ≠ MAP_FAILED →
      List.IsPrefix
        [Event.open_ h.kvm, Event.create_vm h.kvm h.vm,
         Event.mmap 0x1000 (-1) h.mem,
         Event.memcpy h.mem guest_code 11,
         Event.set_user_memory_region h.vm
           { slot := 0, flags := 0, guest_phys_addr := 0x0, memory_size := 0x1000,
             userspace_addr := h.mem } h.set_memory_ret]
        (main h).trace) ∧
    (∀ dest src n, Event.memcpy dest src n ∈ (main h).trace →
      dest = h.mem ∧ src = guest_code ∧ n = 11) ∧
    (∀ fd region ret, Event.set_user_memory_region fd region ret ∈ (main h).trace →
      fd = h.vm ∧ region.slot = 0 ∧ region.guest_phys_addr = 0x0 ∧
      region.memory_size = 0x1000 ∧ region.userspace_addr = h.mem) := by
  refine ⟨rfl, rfl, by decide, ?_, ?_, (main_load_events h).1, ?_⟩
  · intro hlen
    have hs : sizeof_guest_code ≤ guest_code.length := le_refl _
    have hd : sizeof_guest_code ≤ h.page.length := by rw [hlen]; decide
    refine ⟨?_, ?_, ?_⟩
    · rw [guest_memory, memcpy_length _ _ _ hs hd, hlen]
    · intro i hi
      exact memcpy_copied _ _ _ _ hs hi
    · intro i hi _
      exact memcpy_kept _ _ _ _ hs hi
  · intro h1 h2 h3
    rw [main, if_neg (not_lt.mpr h1), if_neg (not_lt.mpr h2), if_neg h3]
    split_ifs
    · exact ⟨_, rfl⟩
    · exact ⟨_, rfl⟩
  · intro fd region ret he
    obtain ⟨hfd, hreg⟩ := (main_load_events h).2 fd region ret he
    subst hreg
    exact ⟨hfd, rfl, rfl, rfl, rfl⟩

theorem load_payload_witness :
    ((guest_memory host_halt).length = GUEST_MEM_SIZE ∧
      (∀ i, i < 11 → (guest_memory host_halt)[i]? = guest_code[i]?) ∧
      (∀ i, 11 ≤ i → i < 0x1000 → (guest_memory host_halt)[i]? = host_halt.page[i]?)) ∧
    List.IsPrefix
      [Event.open_ 3, Event.create_vm 3 4, Event.mmap 0x1000 (-1) 0x7f0000000000,
       Event.memcpy 0x7f0000000000 guest_code 11,
       Event.set_user_memory_region 4
         { slot := 0, flags := 0, guest_phys_addr := 0x0, memory_size := 0x1000,
           userspace_addr := 0x7f0000000000 } 0]
      (main host_halt).trace :=
  ⟨(load_payload host_halt).2.2.2.1 (List.length_replicate 0x1000 0),
   (load_payload host_halt).2.2.2.2.1 (by decide) (by decide) (by decide)⟩

/-! ## C7: the initial state of the vCPU -/

/-- In every execution the only `KVM_SET_REGS` passes `init_regs` of what `KVM_GET_REGS`
left in `regs`, and the only `KVM_SET_SREGS` passes `init_sregs` of what `KVM_GET_SREGS`
left in `sregs`. -/
theorem main_set_events (h : Host) :
    (∀ fd arg ret, Event.set_regs fd arg ret ∈ (main h).trace →
      fd = h.vcpu ∧ arg = init_regs h.regs) ∧
    (∀ fd arg ret, Event.set_sregs fd arg ret ∈ (main h).trace →
      fd = h.vcpu ∧ arg = init_sregs h.sregs) := by
  constructor
  · intro fd arg ret he
    rcases main_events h _ he with he | he
    · have := he; simp [setup_trace] at this; exact ⟨this.1, this.2.1⟩
    · simp [Event.in_loop] at he
  · intro fd arg ret he
    rcases main_events h _ he with he | he
    · have := he; simp [setup_trace] at this; exact ⟨this.1, this.2.1⟩
    · simp [Event.in_loop] at he

/-- C7.  The initial state is a get-modify-set.  With `R = h.regs` what `KVM_GET_REGS`
returned and `S = h.sregs` what `KVM_GET_SREGS` returned: the register set passed to
`KVM_SET_REGS` has `rip = 0x0`, `rflags = 0x2`, `rax = 0`, `rbx = 0` and every other
field as in `R`; the segment state passed to `KVM_SET_SREGS` has `cs.base = 0`,
`cs.selector = 0` and every other field, of `cs` and of the rest, as in `S`.  This holds
of every such call in every execution, and when the set-up succeeds the four calls occur,
on the vCPU, in the order get, set, get, set. -/
theorem initial_state_policy (h : Host) :
    (∀ fd arg ret, Event.set_regs fd arg ret ∈ (main h).trace →
      fd = h.vcpu ∧
      arg.rip = 0x0 ∧ arg.rflags = 0x2 ∧ arg.rax = 0 ∧ arg.rbx = 0 ∧
      arg.rcx = h.regs.rcx ∧ arg.rdx = h.regs.rdx ∧ arg.rsi = h.regs.rsi ∧
      arg.rdi = h.regs.rdi ∧ arg.rsp = h.regs.rsp ∧ arg.rbp = h.regs.rbp ∧
      arg.r8 = h.regs.r8 ∧ arg.r9 = h.regs.r9 ∧ arg.r10 = h.regs.r10 ∧
      arg.r11 = h.regs.r11 ∧ arg.r12 = h.regs.r12 ∧ arg.r13 = h.regs.r13 ∧
      arg.r14 = h.regs.r14 ∧ arg.r15 = h.regs.r15) ∧
    (∀ fd arg ret, Event.set_sregs fd arg ret ∈ (main h).trace →
      fd = h.vcpu ∧
      arg.cs.base = 0 ∧ arg.cs.selector = 0 ∧
      arg.cs.limit = h.sregs.cs.limit ∧ arg.cs.type = h.sregs.cs.type ∧
      arg.cs.present = h.sregs.cs.present ∧ arg.cs.dpl = h.sregs.cs.dpl ∧
      arg.cs.db = h.sregs.cs.db ∧ arg.cs.s = h.sregs.cs.s ∧ arg.cs.l = h.sregs.cs.l ∧
      arg.cs.g = h.sregs.cs.g ∧ arg.cs.avl = h.sregs.cs.avl ∧
      arg.cs.unusable = h.sregs.cs.unusable ∧ arg.cs.padding = h.sregs.cs.padding ∧
      arg.ds = h.sregs.ds ∧ arg.es = h.sregs.es ∧ arg.fs = h.sregs.fs ∧
      arg.gs = h.sregs.gs ∧ arg.ss = h.sregs.ss ∧ arg.tr = h.sregs.tr ∧
      arg.ldt = h.sregs.ldt ∧ arg.gdt = h.sregs.gdt ∧ arg.idt = h.sregs.idt ∧
      arg.cr0 = h.sregs.cr0 ∧ arg.cr2 = h.sregs.cr2 ∧ arg.cr3 = h.sregs.cr3 ∧
      arg.cr4 = h.sregs.cr4 ∧ arg.cr8 = h.sregs.cr8 ∧ arg.efer = h.sregs.efer ∧
      arg.apic_base = h.sregs.apic_base ∧
      arg.interrupt_bitmap = h.sregs.interrupt_bitmap) ∧
    (h.setup_ok →
      List.IsInfix
        [Event.get_regs h.vcpu h.get_regs_ret h.regs,
         Event.set_regs h.vcpu
           { h.regs with rip := 0x0, rflags := 0x2, rax := 0x0, rbx := 0x0 } h.set_regs_ret,
         Event.get_sregs h.vcpu h.get_sregs_ret h.sregs,
         Event.set_sregs h.vcpu
           { h.sregs with cs := { h.sregs.cs with base := 0, selector := 0 } }
           h.set_sregs_ret]
        (main h).trace) := by
  refine ⟨?_, ?_, ?_⟩
  · intro fd arg ret he
    obtain ⟨hfd, harg⟩ := (main_set_events h).1 fd arg ret he
    subst harg
    simp [init_regs, hfd]
  · intro fd arg ret he
    obtain ⟨hfd, harg⟩ := (main_set_events h).2 fd arg ret he
    subst harg
    simp [init_sregs, hfd]
  · intro hok
    rw [main_of_setup_ok h hok, after_trace]
    exact ⟨(setup_trace h).take 8, (run_loop h h.runs).trace, rfl⟩

theorem initial_state_policy_witness :
    List.IsInfix
      [Event.get_regs host_halt.vcpu host_halt.get_regs_ret host_halt.regs,
       Event.set_regs host_halt.vcpu
         { host_halt.regs with rip := 0x0, rflags := 0x2, rax := 0x0, rbx := 0x0 }
         host_halt.set_regs_ret,
       Event.get_sregs host_halt.vcpu host_halt.get_sregs_ret host_halt.sregs,
       Event.set_sregs host_halt.vcpu
         { host_halt.sregs with cs := { host_halt.sregs.cs with base := 0, selector := 0 } }
         host_halt.set_sregs_ret]
      (main host_halt).trace ∧
    (init_regs reset_regs).rip = 0x0 ∧ (init_regs reset_regs).rdx = 0x600 ∧
    (init_sregs reset_sregs).cs.base = 0 ∧ (init_sregs reset_sregs).cs.limit = 0xffff :=
  ⟨(initial_state_policy host_halt).2.2 (by decide),
   ((initial_state_policy host_halt).1 5 (init_regs reset_regs) 0 (by decide)).2.1,
   ((initial_state_policy host_halt).1 5 (init_regs reset_regs) 0 (by decide)).2.2.2.2.2.2.1,
   ((initial_state_policy host_halt).2.1 5 (init_sregs reset_sregs) 0 (by decide)).2.1,
   ((initial_state_policy host_halt).2.1 5 (init_sregs reset_sregs) 0
      (by decide)).2.2.2.1⟩

/-! ## Order of the events -/

/-- A relation that holds towards every event of the loop and towards every `perror`
holds between any two events of an execution in their order, once it does inside the
set-up. -/
theorem main_pairwise (h : Host) (R : Event → Event → Prop)
    (hsetup : List.Pairwise R (setup_trace h))
    (hloop : ∀ a, ∀ b ∈ (run_loop h h.runs).trace, R a b)
    (hperror : ∀ a d, R a (Event.perror d)) :
    List.Pairwise R (main h).trace := by
  rcases main_shape h with ⟨_, hm⟩ | ⟨k, d, _, hm⟩
  · rw [hm, after_trace, List.pairwise_append]
    exact ⟨hsetup, List.pairwise_of_forall_mem_list (fun a _ b hb => hloop a b hb),
      fun a _ b hb => hloop a b hb⟩
  · rw [hm, List.pairwise_append]
    refine ⟨hsetup.sublist (List.take_sublist k _), List.pairwise_singleton _ _, ?_⟩
    intro a _ b hb
    rw [List.mem_singleton] at hb
    subst hb
    exact hperror a d

/-- A relation that holds from every event of the set-up and from every `perror` holds
between any two events of an execution in their order, once it does inside the loop. -/
theorem main_pairwise_loop (h : Host) (R : Event → Event → Prop)
    (hsetup : ∀ a ∈ setup_trace h, ∀ b, R a b)
    (hloop : List.Pairwise R (run_loop h h.runs).trace) :
    List.Pairwise R (main h).trace := by
  rcases main_shape h with ⟨_, hm⟩ | ⟨k, d, _, hm⟩
  · rw [hm, after_trace, List.pairwise_append]
    exact ⟨List.pairwise_of_forall_mem_list (fun a ha b _ => hsetup a ha b), hloop,
      fun a ha b _ => hsetup a ha b⟩
  · rw [hm, List.pairwise_append]
    refine ⟨List.pairwise_of_forall_mem_list
        (fun a ha b _ => hsetup a (List.mem_of_mem_take ha) b),
      List.pairwise_singleton _ _, fun a ha b _ => hsetup a (List.mem_of_mem_take ha) b⟩

theorem io_passes_not_teardown (h : Host) (ios : List RunExit) (e : Event)
    (hios : ∀ x ∈ ios, 0 ≤ x.ret ∧ x.exit_reason = KVM_EXIT_IO)
    (he : e ∈ ios.flatMap (io_pass h)) : e.is_teardown = false := by
  rcases mem_io_passes h ios e hios he with ⟨r, _, _, rfl⟩ | rfl <;> rfl

theorem loop_teardown_last (h : Host) (rs : List RunExit) :
    List.Pairwise (fun a b => a.is_teardown = true → b.is_teardown = true)
      (run_loop h rs).trace := by
  obtain ⟨ios, tail, hios, ht, hend⟩ := run_loop_shape h rs
  rw [ht, List.pairwise_append]
  generalize (run_loop h rs).exit = ex at hend
  refine ⟨?_, ?_, ?_⟩
  · apply List.pairwise_of_forall_mem_list
    intro a ha b _ hf
    rw [io_passes_not_teardown h ios a hios ha] at hf; exact absurd hf (by decide)
  · cases hend <;> simp [Event.is_teardown, cleanup]
  · intro a ha b _ hf
    rw [io_passes_not_teardown h ios a hios ha] at hf; exact absurd hf (by decide)

/-! ## C8: the guest buffer and the VM -/

/-- C8, as the code has it.  In every execution, once a `munmap` or a `close` has been
issued only `munmap` and `close` follow: no `KVM_RUN`, and no other operation, comes
after the guest buffer is unmapped.  And the guest buffer is unmapped in `cleanup` only,
right before `close(vcpu)`, `close(vm)` and `close(kvm)`, which end the execution: the
unmap comes before the close of the vCPU and of the VM. -/
theorem guest_buffer_unmapped_in_cleanup (h : Host) :
    List.Pairwise (fun a b => a.is_teardown = true → b.is_teardown = true)
      (main h).trace ∧
    (Event.munmap h.mem GUEST_MEM_SIZE ∈ (main h).trace →
      List.IsSuffix
        [Event.munmap h.mem GUEST_MEM_SIZE, Event.close h.vcpu, Event.close h.vm,
         Event.close h.kvm] (main h).trace) := by
  constructor
  · apply main_pairwise_loop h _ _ (loop_teardown_last h _)
    intro a ha b hf
    simp only [setup_trace, List.mem_cons, List.mem_singleton, List.not_mem_nil,
      or_false] at ha
    rcases ha with rfl | rfl | rfl | rfl | rfl | rfl | rfl | rfl | rfl | rfl | rfl | rfl <;>
      simp [Event.is_teardown] at hf
  · intro hmem
    have hex : (main h).exit = Exit.status 0 := by
      by_contra hne
      have hz := (main_teardown h).2 hne
      rw [List.countP_eq_zero] at hz
      exact hz _ hmem rfl
    obtain ⟨pre, hp⟩ := ((main_teardown h).1 hex).1
    exact ⟨pre ++ [Event.munmap h.run h.vcpu_mmap_size], by
      rw [← hp, List.append_assoc]; rfl⟩

theorem guest_buffer_unmapped_in_cleanup_witness :
    List.IsSuffix
      [Event.munmap host_halt.mem GUEST_MEM_SIZE, Event.close host_halt.vcpu,
       Event.close host_halt.vm, Event.close host_halt.kvm] (main host_halt).trace :=
  (guest_buffer_unmapped_in_cleanup host_halt).2 (by decide)

/-- C8 fails as stated: on a host where everything succeeds and the guest halts, the
guest buffer is unmapped while the vCPU and the VM are still open; their `close` calls
come after the `munmap`, not before. -/
theorem guest_buffer_unmapped_before_vm_close :
    ∃ pre post,
      (main host_halt).trace = pre ++ Event.munmap host_halt.mem GUEST_MEM_SIZE :: post ∧
      Event.create_vm host_halt.kvm host_halt.vm ∈ pre ∧
      Event.close host_halt.vm ∉ pre ∧ Event.close host_halt.vcpu ∉ pre ∧
      Event.close host_halt.vm ∈ post ∧ Event.close host_halt.vcpu ∈ post :=
  ⟨(main host_halt).trace.take 17, [Event.close 5, Event.close 4, Event.close 3],
    by decide⟩

/-! ## C10: the set-up comes before the execution -/

theorem loop_get_regs (h : Host) (rs : List RunExit) (fd ret : Int) (out : kvm_regs)
    (he : Event.get_regs fd ret out ∈ (run_loop h rs).trace) :
    Event.get_regs fd ret out = Event.get_regs h.vcpu h.hlt_get_regs_ret h.hlt_regs := by
  obtain ⟨ios, tail, hios, ht, hend⟩ := run_loop_shape h rs
  rw [ht] at he
  generalize (run_loop h rs).exit = ex at hend
  rcases List.mem_append.mp he with he | he
  · rcases mem_io_passes h ios _ hios he with ⟨r, _, _, hr⟩ | hr <;> simp at hr
  · cases hend with
    | blocked => simp at he
    | run_failed r hret => simp at he
    | regs_failed r hret hr hregs =>
      have := he; simp at this
      rw [this.1, this.2.1, this.2.2]
    | halted r hret hr hregs =>
      have := he; simp [cleanup] at this
      rw [this.1, this.2.1, this.2.2]
    | failed r m hret hm => simp [cleanup] at he

theorem loop_after_run (h : Host) (rs : List RunExit) (a b : Event)
    (hb : b ∈ (run_loop h rs).trace) : after_run h a b := by
  intro _
  have hl := loop_events h rs b hb
  refine ⟨?_, ?_, ?_⟩
  · cases b <;> simp [Event.in_loop] at hl <;> rfl
  · cases b <;> simp [Event.in_loop] at hl <;> rfl
  · intro hop
    cases b <;> simp [Event.in_loop] at hl <;> simp [Event.is_register_op] at hop
    exact loop_get_regs h rs _ _ _ hb

theorem loop_follows_halt (h : Host) (rs : List RunExit) (a : Event) :
    List.Chain (follows_halt h) a (run_loop h rs).trace := by
  induction rs generalizing a with
  | nil => simp [run_loop, follows_halt, Event.is_get_regs]
  | cons r rs ih =>
    by_cases h1 : r.ret < 0
    · rw [run_loop, if_pos h1]; simp [follows_halt, Event.is_get_regs]
    · have hret : 0 ≤ r.ret := not_lt.mp h1
      by_cases c1 : r.exit_reason = KVM_EXIT_HLT
      · by_cases h2 : h.hlt_get_regs_ret < 0
        · rw [run_loop, if_neg h1, if_pos c1, if_pos h2]
          simp [follows_halt, Event.is_get_regs, c1]
        · rw [run_loop, if_neg h1, if_pos c1, if_neg h2]
          simp [Result.after, cleanup, follows_halt, Event.is_get_regs, c1]
      · by_cases c0 : r.exit_reason = KVM_EXIT_IO
        · rw [run_loop_io_cons h r rs hret c0, after_trace, io_pass]
          simp only [List.cons_append, List.nil_append, List.chain_cons]
          exact ⟨by simp [follows_halt, Event.is_get_regs],
            by simp [follows_halt, Event.is_get_regs], ih _⟩
        · by_cases c2 : r.exit_reason = KVM_EXIT_FAIL_ENTRY
          · rw [run_loop, if_neg h1, if_neg c1, if_neg c0, if_pos c2]
            simp [Result.after, cleanup, follows_halt, Event.is_get_regs]
          · by_cases c3 : r.exit_reason = KVM_EXIT_INTERNAL_ERROR
            · rw [run_loop, if_neg h1, if_neg c1, if_neg c0, if_neg c2, if_pos c3]
              simp [Result.after, cleanup, follows_halt, Event.is_get_regs]
            · rw [run_loop, if_neg h1, if_neg c1, if_neg c0, if_neg c2, if_neg c3]
              simp [Result.after, cleanup, follows_halt, Event.is_get_regs]

theorem setup_follows_halt (h : Host) : List.Chain' (follows_halt h) (setup_trace h) := by
  simp [setup_trace, follows_halt, Event.is_get_regs, Event.is_mmap]

theorem main_follows_halt (h : Host) : List.Chain' (follows_halt h) (main h).trace := by
  rcases main_shape h with ⟨_, hm⟩ | ⟨k, d, _, hm⟩
  · rw [hm, after_trace]
    have hs := setup_follows_halt h
    have hl := loop_follows_halt h h.runs
        (Event.set_sregs h.vcpu (init_sregs h.sregs) h.set_sregs_ret)
    simp only [setup_trace, List.cons_append, List.nil_append, List.chain'_cons] at hs ⊢
    simp only [List.Chain', List.chain_cons] at hs ⊢
    tauto
  · rw [hm]
    apply List.Chain'.append ((setup_follows_halt h).take k) (List.chain'_singleton _)
    intro x _ y hy
    simp at hy
    subst hy
    simp [follows_halt, Event.is_get_regs]

theorem main_vcpu_after_memory (h : Host) :
    List.Pairwise
      (fun a b => a.is_create_vcpu = true → b.is_load = false ∧ b.is_register_memory = false)
      (main h).trace := by
  apply main_pairwise
  · simp [setup_trace, Event.is_create_vcpu, Event.is_load, Event.is_register_memory]
  · intro a b hb _
    have hl := loop_events h _ b hb
    cases b <;> simp [Event.in_loop] at hl <;> exact ⟨rfl, rfl⟩
  · intro a d _
    exact ⟨rfl, rfl⟩

theorem main_after_run (h : Host) : List.Pairwise (after_run h) (main h).trace := by
  apply main_pairwise
  · simp [setup_trace, after_run, Event.is_run]
  · intro a b hb
    exact loop_after_run h _ a b hb
  · intro a d _
    exact ⟨rfl, rfl, fun hop => by simp [Event.is_register_op] at hop⟩

theorem main_vcpu_has_memory (h : Host) (e : Event) (he : e ∈ (main h).trace)
    (hc : e.is_create_vcpu = true) :
    Event.memcpy h.mem guest_code sizeof_guest_code ∈ (main h).trace ∧
    Event.set_user_memory_region h.vm (mem_region h.mem) h.set_memory_ret ∈
      (main h).trace := by
  rcases main_shape h with ⟨_, hm⟩ | ⟨k, d, hk, hm⟩
  · rw [hm, after_trace]
    constructor <;> apply List.mem_append_left <;> simp [setup_trace]
  · rw [hm] at he ⊢
    interval_cases k <;> simp [setup_trace] at he ⊢ <;>
      (try (rcases he with rfl | rfl | rfl | rfl | rfl | rfl <;>
        simp [Event.is_create_vcpu] at hc))

theorem main_run_has_state (h : Host) (e : Event) (he : e ∈ (main h).trace)
    (hc : e.is_run = true) :
    Event.set_regs h.vcpu (init_regs h.regs) h.set_regs_ret ∈ (main h).trace ∧
    Event.set_sregs h.vcpu (init_sregs h.sregs) h.set_sregs_ret ∈ (main h).trace := by
  rcases main_shape h with ⟨_, hm⟩ | ⟨k, d, hk, hm⟩
  · rw [hm, after_trace]
    constructor <;> apply List.mem_append_left <;> simp [setup_trace]
  · exfalso
    rw [hm] at he
    rcases List.mem_append.mp he with he | he
    · have he := List.mem_of_mem_take he
      simp only [setup_trace, List.mem_cons, List.mem_singleton, List.not_mem_nil,
        or_false] at he
      rcases he with rfl | rfl | rfl | rfl | rfl | rfl | rfl | rfl | rfl | rfl | rfl | rfl <;>
        simp [Event.is_run] at hc
    · rw [List.mem_singleton] at he; subst he; simp [Event.is_run] at hc

/-- C10.  In every execution: no load of the payload and no memory registration comes
after `KVM_CREATE_VCPU`, and when the vCPU is created both are in the trace, so they came
before; after a `KVM_RUN` there is no `KVM_SET_REGS` and no `KVM_SET_SREGS`, and when
`KVM_RUN` is called both are in the trace, so they came before the first `KVM_RUN`; the
only register operation after a `KVM_RUN` is the `KVM_GET_REGS` of the halt branch, which
comes right after the line `KVM_EXIT_HLT`, itself right after a `KVM_RUN` that returned
`KVM_EXIT_HLT`. -/
theorem setup_before_run (h : Host) :
    List.Pairwise
      (fun a b => a.is_create_vcpu = true → b.is_load = false ∧ b.is_register_memory = false)
      (main h).trace ∧
    (∀ e ∈ (main h).trace, e.is_create_vcpu = true →
      Event.memcpy h.mem guest_code sizeof_guest_code ∈ (main h).trace ∧
      Event.set_user_memory_region h.vm (mem_region h.mem) h.set_memory_ret ∈
        (main h).trace) ∧
    List.Pairwise
      (fun a b => a.is_run = true →
        b.is_mmap = false ∧ b.is_set_state = false ∧
        (b.is_register_op = true →
          b = Event.get_regs h.vcpu h.hlt_get_regs_ret h.hlt_regs))
      (main h).trace ∧
    (∀ e ∈ (main h).trace, e.is_run = true →
      Event.set_regs h.vcpu (init_regs h.regs) h.set_regs_ret ∈ (main h).trace ∧
      Event.set_sregs h.vcpu (init_sregs h.sregs) h.set_sregs_ret ∈ (main h).trace) ∧
    List.Chain'
      (fun a b =>
        (b.is_get_regs = true → a.is_mmap = true ∨ a = Event.printf Msg.hlt) ∧
        (b = Event.printf Msg.hlt →
          ∃ r, a = Event.kvm_run h.vcpu (some r) ∧ r.exit_reason = KVM_EXIT_HLT))
      (main h).trace :=
  ⟨main_vcpu_after_memory h, main_vcpu_has_memory h, main_after_run h,
    main_run_has_state h, main_follows_halt h⟩

theorem setup_before_run_witness :
    (Event.memcpy host_halt.mem guest_code sizeof_guest_code ∈ (main host_halt).trace ∧
      Event.set_user_memory_region host_halt.vm (mem_region host_halt.mem)
        host_halt.set_memory_ret ∈ (main host_halt).trace) ∧
    (Event.set_regs host_halt.vcpu (init_regs host_halt.regs) host_halt.set_regs_ret ∈
        (main host_halt).trace ∧
      Event.set_sregs host_halt.vcpu (init_sregs host_halt.sregs) host_halt.set_sregs_ret ∈
        (main host_halt).trace) :=
  ⟨(setup_before_run host_halt).2.1 (Event.create_vcpu 4 0 5) (by decide) (by decide),
   (setup_before_run host_halt).2.2.2.1 (Event.kvm_run 5 (some ⟨0, KVM_EXIT_HLT⟩))
    (by decide) (by decide)⟩

/-! ## C6: the payload, executed -/

theorem guest_memory_code (h : Host) (i : Nat) (hi : i < 11) :
    (guest_memory h)[i]? = guest_code[i]? :=
  memcpy_copied _ _ _ _ (le_refl _) hi

/-- The payload runs, whatever the registers and the page were before: four instructions,
at offsets 0, 3, 6 and 8, the last one the `hlt`; `rax = 0x2b`, `rbx = 0x1`. -/
theorem guest_run_payload (h : Host) (fuel : Nat) (hfuel : 4 ≤ fuel) :
    guest_run fuel (guest_memory h) (init_sregs h.sregs).cs.base (init_regs h.regs) =
      some ([0x0, 0x3, 0x6, 0x8],
        { init_regs h.regs with rax := 0x2b, rbx := 0x1, rip := 0x9 }) := by
  obtain ⟨n, rfl⟩ : ∃ n, fuel = n + 4 := ⟨fuel - 4, by omega⟩
  have m0 := guest_memory_code h 0 (by decide)
  have m1 := guest_memory_code h 1 (by decide)
  have m2 := guest_memory_code h 2 (by decide)
  have m3 := guest_memory_code h 3 (by decide)
  have m4 := guest_memory_code h 4 (by decide)
  have m5 := guest_memory_code h 5 (by decide)
  have m6 := guest_memory_code h 6 (by decide)
  have m7 := guest_memory_code h 7 (by decide)
  have m8 := guest_memory_code h 8 (by decide)
  simp only [guest_code, List.getElem?_cons_zero, List.getElem?_cons_succ] at m0 m1 m2 m3 m4 m5 m6 m7 m8
  simp [guest_run, guest_step, init_regs, init_sregs, set_low16, m0, m1, m2, m3, m4, m5,
    m6, m7, m8]

/-- C6.  The payload end to end.  Run in 16-bit mode from the state `main` programs
(`rip = 0`, `rax = 0`, `rbx = 0`, code-segment base 0) on the memory `main` loaded, the
guest executes the instructions at offsets 0, 3, 6 and 8 and no other: it halts on the
`hlt` at offset 8, never reaching the `jmp` at offset 9, with `rax = 0x2b` and
`rbx = 0x1`; any amount of fuel from 4 on gives this result.  On a host that runs the
guest so, whatever the address `h.mem` of the guest buffer, the bytes the page held and
the registers the vCPU had, `main` takes the halt branch, prints `rax=0x2b rbx=0x1`, runs
`cleanup` and exits with status 0. -/
theorem payload_end_to_end (h : Host) (fuel : Nat) (hfuel : 4 ≤ fuel)
    (hok : h.setup_ok) (hg : h.runs_guest fuel = true) :
    guest_run fuel (guest_memory h) (init_sregs h.sregs).cs.base (init_regs h.regs) =
      some ([0x0, 0x3, 0x6, 0x8],
        { init_regs h.regs with rax := 0x2b, rbx := 0x1, rip := 0x9 }) ∧
    (guest_memory h)[8]? = some 0xf4 ∧
    (init_regs h.regs).rip = 0x0 ∧ (init_regs h.regs).rax = 0 ∧
    (init_regs h.regs).rbx = 0 ∧ (init_sregs h.sregs).cs.base = 0 ∧
    ∃ r rest, h.runs = r :: rest ∧ r.exit_reason = KVM_EXIT_HLT ∧
      main h =
        ⟨Exit.status 0,
         setup_trace h ++
           [Event.kvm_run h.vcpu (some r), Event.printf Msg.hlt,
            Event.get_regs h.vcpu h.hlt_get_regs_ret h.hlt_regs,
            Event.printf (Msg.regs 0x2b 0x1)] ++
           (cleanup h).trace⟩ := by
  have hrun := guest_run_payload h fuel hfuel
  refine ⟨hrun, ?_, rfl, rfl, rfl, rfl, ?_⟩
  · rw [guest_memory_code h 8 (by decide)]; rfl
  · unfold Host.runs_guest at hg
    rw [hrun] at hg
    cases hruns : h.runs with
    | nil => rw [hruns] at hg; simp at hg
    | cons r rest =>
      rw [hruns] at hg
      simp only [Bool.and_eq_true, decide_eq_true_eq] at hg
      obtain ⟨⟨⟨⟨⟨⟨_, _⟩, hret⟩, hr⟩, hregs⟩, hax⟩, hbx⟩ := hg
      have hne : r.exit_reason ≠ KVM_EXIT_IO := by rw [hr]; decide
      obtain ⟨report, e, _, hrep, _⟩ :=
        main_cleanup_path h [] rest r hok hruns (by simp) hret hne (fun _ => hregs)
      refine ⟨r, rest, rfl, hr, ?_⟩
      rw [e, hrep hr, hax, hbx]
      simp [Result.after, cleanup]

/-- The sample host runs the guest as the model has it. -/
theorem host_halt_runs_guest : host_halt.runs_guest 4 = true := by
  unfold Host.runs_guest
  rw [guest_run_payload host_halt 4 (le_refl 4)]
  decide

theorem payload_end_to_end_witness :
    ∃ r rest, host_halt.runs = r :: rest ∧ r.exit_reason = KVM_EXIT_HLT ∧
      main host_halt =
        ⟨Exit.status 0,
         setup_trace host_halt ++
           [Event.kvm_run host_halt.vcpu (some r), Event.printf Msg.hlt,
            Event.get_regs host_halt.vcpu host_halt.hlt_get_regs_ret host_halt.hlt_regs,
            Event.printf (Msg.regs 0x2b 0x1)] ++
           (cleanup host_halt).trace⟩ :=
  (payload_end_to_end host_halt 4 (by decide) (by decide) host_halt_runs_guest).2.2.2.2.2.2

end MinimalVm
